import Mathlib

/-!
Verification of the hierarchical resource-management core of the
encryption-service UI (Rust sources: `src/models.rs`, `src/config.rs`,
`src/services.rs`).

The embedding is shallow: the persisted JSON document (`Config` in
`config.rs`) is a Lean structure; every Entity Service operation is a pure
function `... → Config → Except SvcError Config` whose `Except.ok` result is
the document handed to `save_config` at the end of the load-mutate-save
cycle, and whose `Except.error` result is the `anyhow::bail!` taken before
any save.  Rust `DateTime<Utc>` fields are modelled as their RFC 3339 string
renderings; machine integers (`u16`, `u32`, `u64`, `i64`) are modelled as
`Nat` / `Int` (no arithmetic is performed on them anywhere in the core).
Store-level effects (a `save_config` call that may fail with an I/O error)
are modelled by `runStore`, which threads the persisted document explicitly.
-/

/-- Model of `GroupStatus` from `models.rs`. -/
inductive GroupStatus where
  | Running
  | Stopped
  | Starting
  | Stopping
  | Error
deriving DecidableEq

/-- Model of `ContainerStatus` from `models.rs`. -/
inductive ContainerStatus where
  | Running
  | Stopped
  | Starting
  | Stopping
  | Error
deriving DecidableEq

/-- Model of `HealthStatus` from `models.rs`. -/
inductive HealthStatus where
  | Healthy
  | Unhealthy
  | Unknown
  | Checking
deriving DecidableEq

/-- Model of `SchedulerStrategy` from `models.rs` (serde renames: "single",
"read_write_split", "load_balance"). -/
inductive SchedulerStrategy where
  | Single
  | ReadWriteSplit
  | LoadBalance
deriving DecidableEq

/-- Model of `CrudApiInstance` from `models.rs`. -/
structure CrudApiInstance where
  id : String
  url : String
  instance_type : String
  timeout : Nat
  retries : Nat
deriving DecidableEq

/-- Model of `ServerConfig` from `models.rs`. -/
structure ServerConfig where
  host : String
  port : Nat
  https : Bool
deriving DecidableEq

/-- Model of `JwtConfig` from `models.rs` (`expires_in`, `refresh_in` are `i64`). -/
structure JwtConfig where
  secret : String
  expires_in : Int
  refresh_in : Int
deriving DecidableEq

/-- Model of `EncryptionConfig` from `models.rs`. -/
structure EncryptionConfig where
  algorithm : String
  key_length : Nat
  iterations : Nat
  salt : String
deriving DecidableEq

/-- Model of `ServiceRoleConfig` from `models.rs`. -/
structure ServiceRoleConfig where
  role : String
  id : String
deriving DecidableEq

/-- Model of `CrudApiConfig` from `models.rs`. -/
structure CrudApiConfig where
  instances : List CrudApiInstance
  strategy : SchedulerStrategy
  health_check_interval : Nat
  timeout : Nat
  retries : Nat
deriving DecidableEq

/-- Model of `AppConfig` from `models.rs` (the embedded full service configuration
carried on every middleware container). -/
structure AppConfig where
  server : ServerConfig
  jwt : JwtConfig
  encryption : EncryptionConfig
  service : ServiceRoleConfig
  crud_api : CrudApiConfig
deriving DecidableEq

/-- Model of `BackendContainer` from `models.rs`. -/
structure BackendContainer where
  id : String
  name : String
  url : String
  instance_type : String
  timeout : Nat
  retries : Nat
  status : ContainerStatus
  health : HealthStatus
deriving DecidableEq

/-- Model of `MiddlewareContainer` from `models.rs`. -/
structure MiddlewareContainer where
  id : String
  name : String
  url : String
  docker_run_params : String
  config : AppConfig
  backend_containers : List BackendContainer
  status : ContainerStatus
  health : HealthStatus
  logs : List String
  agent_installed : Bool
deriving DecidableEq

/-- Model of `BusinessGroup` from `models.rs`; the two `DateTime<Utc>` timestamps are
modelled as their RFC 3339 string renderings. -/
structure BusinessGroup where
  id : String
  name : String
  description : String
  middlewares : List MiddlewareContainer
  backend_containers : List BackendContainer
  status : GroupStatus
  created_at : String
  updated_at : String
deriving DecidableEq

/-- Model of `AppState` from `models.rs`. -/
structure AppState where
  business_groups : List BusinessGroup
  selected_group_id : Option String
  selected_middleware_id : Option String
  selected_backend_id : Option String
deriving DecidableEq

/-- Model of `Config` from `config.rs`: the persisted top-level document. -/
structure Config where
  app_state : AppState
  last_opened : String
  theme : String
  auto_save : Bool
  save_interval : Nat
deriving DecidableEq

/-- The distinct failure exits of the services: the three `anyhow::bail!`
sites of `services.rs` (group / middleware / backend not found, each
carrying the identifier it reports) and an I/O failure of the store. -/
inductive SvcError where
  | groupNotFound (id : String)
  | middlewareNotFound (id : String)
  | backendNotFound (id : String)
  | ioFailure
deriving DecidableEq

/-- Embedding of the pervasive `services.rs` pattern
`if let Some(x) = xs.iter_mut().find(|x| p x) { body(x) } else { bail!(e) }`:
apply `k` to the first element satisfying `p` (the body may itself bail),
leave every other element untouched, and fail with `e` when no element
matches. -/
def mutateList (p : α → Bool) (k : α → Except SvcError α) (e : SvcError) :
    List α → Except SvcError (List α)
  | [] => .error e
  | x :: xs =>
    if p x then (k x).map (· :: xs)
    else (mutateList p k e xs).map (x :: ·)

/-- Replace the business-group list of a document, keeping every other field
(the mutating services only ever touch `config.app_state.business_groups`). -/
def setGroups (cfg : Config) (bgs : List BusinessGroup) : Config :=
  { cfg with app_state := { cfg.app_state with business_groups := bgs } }

/-- Resolve a group by identifier and run `k` on it
(`business_groups.iter_mut().find(|g| g.id == group_id)`), bailing with
`groupNotFound` if absent. -/
def withGroup (gid : String) (k : BusinessGroup → Except SvcError BusinessGroup)
    (cfg : Config) : Except SvcError Config :=
  (mutateList (fun g => g.id == gid) k (.groupNotFound gid)
      cfg.app_state.business_groups).map (setGroups cfg)

/-- Resolve a group, then a middleware inside it, and run `k` on the
middleware, bailing at the first unresolved level. -/
def withMiddleware (gid mid : String)
    (k : MiddlewareContainer → Except SvcError MiddlewareContainer)
    (cfg : Config) : Except SvcError Config :=
  withGroup gid (fun g =>
    (mutateList (fun m => m.id == mid) k (.middlewareNotFound mid)
        g.middlewares).map (fun ms => { g with middlewares := ms })) cfg

/-- Resolve a backend container in either scope, as every
`BackendService` operation does: with `some mid` through the middleware's
`backend_containers`, with `none` through the group's own
`backend_containers`. -/
def withBackendIn (gid : String) (mid : Option String) (bid : String)
    (k : BackendContainer → Except SvcError BackendContainer)
    (cfg : Config) : Except SvcError Config :=
  match mid with
  | some mid => withMiddleware gid mid (fun m =>
      (mutateList (fun b => b.id == bid) k (.backendNotFound bid)
          m.backend_containers).map
        (fun bs => { m with backend_containers := bs })) cfg
  | none => withGroup gid (fun g =>
      (mutateList (fun b => b.id == bid) k (.backendNotFound bid)
          g.backend_containers).map
        (fun bs => { g with backend_containers := bs })) cfg

/-- Model of `BusinessGroupService::get_all_business_groups`. -/
def get_all_business_groups (cfg : Config) : Except SvcError (List BusinessGroup) :=
  .ok cfg.app_state.business_groups

/-- Model of `BusinessGroupService::add_business_group`: pushes the caller-supplied
group verbatim and saves. -/
def add_business_group (group : BusinessGroup) (cfg : Config) :
    Except SvcError Config :=
  .ok (setGroups cfg (cfg.app_state.business_groups ++ [group]))

/-- Model of `BusinessGroupService::update_business_group`: replaces the first group
whose id matches `group.id` by the caller-supplied group verbatim; bails
`groupNotFound` if no id matches. -/
def update_business_group (group : BusinessGroup) (cfg : Config) :
    Except SvcError Config :=
  withGroup group.id (fun _ => .ok group) cfg

/-- Model of `BusinessGroupService::delete_business_group`:
`retain(|g| g.id != group_id)` and save (always succeeds). -/
def delete_business_group (gid : String) (cfg : Config) :
    Except SvcError Config :=
  .ok (setGroups cfg (cfg.app_state.business_groups.filter (fun g => g.id != gid)))

/-- Model of `BusinessGroupService::get_business_group`: first-match lookup. -/
def get_business_group (gid : String) (cfg : Config) :
    Except SvcError (Option BusinessGroup) :=
  .ok (cfg.app_state.business_groups.find? (fun g => g.id == gid))

/-- The body of `start_business_group` on the found group: `status =
Starting;` immediately followed by `status = Running` in the same
load-mutate-save cycle. -/
def startedGroup (g : BusinessGroup) : BusinessGroup :=
  let g1 := { g with status := GroupStatus.Starting }
  { g1 with status := GroupStatus.Running }

/-- The body of `stop_business_group` on the found group: `status =
Stopping;` then immediately `status = Stopped`. -/
def stoppedGroup (g : BusinessGroup) : BusinessGroup :=
  let g1 := { g with status := GroupStatus.Stopping }
  { g1 with status := GroupStatus.Stopped }

/-- Model of `BusinessGroupService::start_business_group`. -/
def start_business_group (gid : String) (cfg : Config) : Except SvcError Config :=
  withGroup gid (fun g => .ok (startedGroup g)) cfg

/-- Model of `BusinessGroupService::stop_business_group`. -/
def stop_business_group (gid : String) (cfg : Config) : Except SvcError Config :=
  withGroup gid (fun g => .ok (stoppedGroup g)) cfg

/-- Model of `BusinessGroupService::restart_business_group`:
`self.stop_business_group(group_id)?; self.start_business_group(group_id)` —
the second call loads the document the first call persisted. -/
def restart_business_group (gid : String) (cfg : Config) : Except SvcError Config :=
  (stop_business_group gid cfg).bind (start_business_group gid)

/-- Model of `MiddlewareService::add_middleware_to_group`. -/
def add_middleware_to_group (gid : String) (m : MiddlewareContainer)
    (cfg : Config) : Except SvcError Config :=
  withGroup gid (fun g => .ok { g with middlewares := g.middlewares ++ [m] }) cfg

/-- Model of `MiddlewareService::update_middleware`: replaces the first middleware of
the resolved group whose id matches `m.id` by the payload verbatim. -/
def update_middleware (gid : String) (m : MiddlewareContainer)
    (cfg : Config) : Except SvcError Config :=
  withMiddleware gid m.id (fun _ => .ok m) cfg

/-- Model of `MiddlewareService::delete_middleware`:
`retain(|m| m.id != middleware_id)` inside the resolved group. -/
def delete_middleware (gid mid : String) (cfg : Config) : Except SvcError Config :=
  withGroup gid (fun g =>
    .ok { g with middlewares := g.middlewares.filter (fun m => m.id != mid) }) cfg

/-- Body of `start_middleware` on the found middleware. -/
def startedMiddleware (m : MiddlewareContainer) : MiddlewareContainer :=
  let m1 := { m with status := ContainerStatus.Starting }
  { m1 with status := ContainerStatus.Running }

/-- Body of `stop_middleware` on the found middleware. -/
def stoppedMiddleware (m : MiddlewareContainer) : MiddlewareContainer :=
  let m1 := { m with status := ContainerStatus.Stopping }
  { m1 with status := ContainerStatus.Stopped }

/-- Model of `MiddlewareService::start_middleware`. -/
def start_middleware (gid mid : String) (cfg : Config) : Except SvcError Config :=
  withMiddleware gid mid (fun m => .ok (startedMiddleware m)) cfg

/-- Model of `MiddlewareService::stop_middleware`. -/
def stop_middleware (gid mid : String) (cfg : Config) : Except SvcError Config :=
  withMiddleware gid mid (fun m => .ok (stoppedMiddleware m)) cfg

/-- Model of `MiddlewareService::restart_middleware`: stop then start, each with its
own load-mutate-save cycle. -/
def restart_middleware (gid mid : String) (cfg : Config) : Except SvcError Config :=
  (stop_middleware gid mid cfg).bind (start_middleware gid mid)

/-- Model of `BackendService::add_backend_to_middleware`. -/
def add_backend_to_middleware (gid mid : String) (b : BackendContainer)
    (cfg : Config) : Except SvcError Config :=
  withMiddleware gid mid (fun m =>
    .ok { m with backend_containers := m.backend_containers ++ [b] }) cfg

/-- Model of `BackendService::add_backend_to_group`. -/
def add_backend_to_group (gid : String) (b : BackendContainer)
    (cfg : Config) : Except SvcError Config :=
  withGroup gid (fun g =>
    .ok { g with backend_containers := g.backend_containers ++ [b] }) cfg

/-- Model of `BackendService::update_backend`: replaces the backend whose id matches
`b.id` in the scope selected by `mid` by the payload verbatim. -/
def update_backend (gid : String) (mid : Option String) (b : BackendContainer)
    (cfg : Config) : Except SvcError Config :=
  withBackendIn gid mid b.id (fun _ => .ok b) cfg

/-- Model of `BackendService::delete_backend`: `retain(|b| b.id != backend_id)` in
the selected scope — no existence check on the backend identifier itself. -/
def delete_backend (gid : String) (mid : Option String) (bid : String)
    (cfg : Config) : Except SvcError Config :=
  match mid with
  | some mid => withMiddleware gid mid (fun m =>
      .ok { m with backend_containers :=
              m.backend_containers.filter (fun b => b.id != bid) }) cfg
  | none => withGroup gid (fun g =>
      .ok { g with backend_containers :=
              g.backend_containers.filter (fun b => b.id != bid) }) cfg

/-- Body of `start_backend` on the found backend. -/
def startedBackend (b : BackendContainer) : BackendContainer :=
  let b1 := { b with status := ContainerStatus.Starting }
  { b1 with status := ContainerStatus.Running }

/-- Body of `stop_backend` on the found backend. -/
def stoppedBackend (b : BackendContainer) : BackendContainer :=
  let b1 := { b with status := ContainerStatus.Stopping }
  { b1 with status := ContainerStatus.Stopped }

/-- Model of `BackendService::start_backend`. -/
def start_backend (gid : String) (mid : Option String) (bid : String)
    (cfg : Config) : Except SvcError Config :=
  withBackendIn gid mid bid (fun b => .ok (startedBackend b)) cfg

/-- Model of `BackendService::stop_backend`. -/
def stop_backend (gid : String) (mid : Option String) (bid : String)
    (cfg : Config) : Except SvcError Config :=
  withBackendIn gid mid bid (fun b => .ok (stoppedBackend b)) cfg

/-- Model of `BackendService::restart_backend`: stop then start, each with its own
load-mutate-save cycle. -/
def restart_backend (gid : String) (mid : Option String) (bid : String)
    (cfg : Config) : Except SvcError Config :=
  (stop_backend gid mid bid cfg).bind (start_backend gid mid bid)

/-- Store-level semantics of one load-mutate-save cycle: `op` is the pure
cycle on the loaded document; `saveOk` says whether the final
`save_config` succeeds.  Returns the operation's result together with the
document that is persisted afterwards (unchanged when the operation bailed
before saving or the save itself failed). -/
def runStore (op : Config → Except SvcError Config) (saveOk : Bool)
    (store : Config) : Except SvcError Config × Config :=
  match op store with
  | .error e => (.error e, store)
  | .ok cfg => if saveOk then (.ok cfg, cfg) else (.error .ioFailure, store)

/-- Store-level semantics of `restart_business_group`: the `stop` half runs
first (its save may fail); only if it returns `Ok` does the `start` half
run against whatever the store then holds. -/
def restart_business_group_store (gid : String) (stopOk startOk : Bool)
    (store : Config) : Except SvcError Config × Config :=
  match runStore (stop_business_group gid) stopOk store with
  | (.error e, s) => (.error e, s)
  | (.ok _, s) => runStore (start_business_group gid) startOk s

/-- Transient group statuses (`Starting` / `Stopping`), per the spec's state
machine. -/
def GroupStatus.isTransient : GroupStatus → Bool
  | .Starting => true
  | .Stopping => true
  | _ => false

/-- Transient container statuses. -/
def ContainerStatus.isTransient : ContainerStatus → Bool
  | .Starting => true
  | .Stopping => true
  | _ => false

/-- A backend container carries no transient status. -/
def backendClean (b : BackendContainer) : Bool := !b.status.isTransient

/-- A middleware container and all of its backends carry no transient
status. -/
def middlewareClean (m : MiddlewareContainer) : Bool :=
  !m.status.isTransient && m.backend_containers.all backendClean

/-- A group and all of its descendants carry no transient status. -/
def groupClean (g : BusinessGroup) : Bool :=
  !g.status.isTransient && g.middlewares.all middlewareClean &&
    g.backend_containers.all backendClean

/-- No entity anywhere in the persisted document carries a transient
status. -/
def configClean (cfg : Config) : Bool :=
  cfg.app_state.business_groups.all groupClean

/-- One Entity Service mutating operation, to quantify over "any operation"
in the spec's invariants. -/
inductive Op where
  | addGroup (g : BusinessGroup)
  | updateGroup (g : BusinessGroup)
  | deleteGroup (gid : String)
  | startGroup (gid : String)
  | stopGroup (gid : String)
  | restartGroup (gid : String)
  | addMiddleware (gid : String) (m : MiddlewareContainer)
  | updateMiddleware (gid : String) (m : MiddlewareContainer)
  | deleteMiddleware (gid : String) (mid : String)
  | startMiddleware (gid : String) (mid : String)
  | stopMiddleware (gid : String) (mid : String)
  | restartMiddleware (gid : String) (mid : String)
  | addBackendMw (gid : String) (mid : String) (b : BackendContainer)
  | addBackendGrp (gid : String) (b : BackendContainer)
  | updateBackend (gid : String) (mid : Option String) (b : BackendContainer)
  | deleteBackend (gid : String) (mid : Option String) (bid : String)
  | startBackend (gid : String) (mid : Option String) (bid : String)
  | stopBackend (gid : String) (mid : Option String) (bid : String)
  | restartBackend (gid : String) (mid : Option String) (bid : String)

/-- Dispatch an operation to the service function it denotes. -/
def runOp : Op → Config → Except SvcError Config
  | .addGroup g => add_business_group g
  | .updateGroup g => update_business_group g
  | .deleteGroup gid => delete_business_group gid
  | .startGroup gid => start_business_group gid
  | .stopGroup gid => stop_business_group gid
  | .restartGroup gid => restart_business_group gid
  | .addMiddleware gid m => add_middleware_to_group gid m
  | .updateMiddleware gid m => update_middleware gid m
  | .deleteMiddleware gid mid => delete_middleware gid mid
  | .startMiddleware gid mid => start_middleware gid mid
  | .stopMiddleware gid mid => stop_middleware gid mid
  | .restartMiddleware gid mid => restart_middleware gid mid
  | .addBackendMw gid mid b => add_backend_to_middleware gid mid b
  | .addBackendGrp gid b => add_backend_to_group gid b
  | .updateBackend gid mid b => update_backend gid mid b
  | .deleteBackend gid mid bid => delete_backend gid mid bid
  | .startBackend gid mid bid => start_backend gid mid bid
  | .stopBackend gid mid bid => stop_backend gid mid bid
  | .restartBackend gid mid bid => restart_backend gid mid bid

/-- The caller-supplied payload of an operation carries no transient status
(vacuously true for operations that take no entity payload). -/
def opClean : Op → Bool
  | .addGroup g => groupClean g
  | .updateGroup g => groupClean g
  | .addMiddleware _ m => middlewareClean m
  | .updateMiddleware _ m => middlewareClean m
  | .addBackendMw _ _ b => backendClean b
  | .addBackendGrp _ b => backendClean b
  | .updateBackend _ _ b => backendClean b
  | _ => true

/-- Backend identifiers are pairwise distinct within one collection. -/
def middlewareUnique (m : MiddlewareContainer) : Prop :=
  (m.backend_containers.map (fun b => b.id)).Nodup

/-- Middleware ids are distinct within the group, each middleware's backend
ids are distinct, and the group's direct backend ids are distinct. -/
def groupUnique (g : BusinessGroup) : Prop :=
  (g.middlewares.map (fun m => m.id)).Nodup ∧
  (∀ m ∈ g.middlewares, middlewareUnique m) ∧
  (g.backend_containers.map (fun b => b.id)).Nodup

/-- Identifier uniqueness within every scope of the stored tree. -/
def storeUnique (cfg : Config) : Prop :=
  (cfg.app_state.business_groups.map (fun g => g.id)).Nodup ∧
  ∀ g ∈ cfg.app_state.business_groups, groupUnique g

/-- Freshness and internal uniqueness of caller-supplied payloads, relative
to the loaded store: what an `add` needs so as not to introduce a duplicate
identifier, and what `update` payloads need so as not to smuggle an
internally duplicated entity into the tree. -/
def opFresh : Op → Config → Prop
  | .addGroup g, cfg => groupUnique g ∧
      ∀ g0 ∈ cfg.app_state.business_groups, g0.id ≠ g.id
  | .updateGroup g, _ => groupUnique g
  | .addMiddleware gid m, cfg => middlewareUnique m ∧
      ∀ g0 ∈ cfg.app_state.business_groups, g0.id = gid →
        ∀ m0 ∈ g0.middlewares, m0.id ≠ m.id
  | .updateMiddleware _ m, _ => middlewareUnique m
  | .addBackendMw gid mid b, cfg =>
      ∀ g0 ∈ cfg.app_state.business_groups, g0.id = gid →
        ∀ m0 ∈ g0.middlewares, m0.id = mid →
          ∀ b0 ∈ m0.backend_containers, b0.id ≠ b.id
  | .addBackendGrp gid b, cfg =>
      ∀ g0 ∈ cfg.app_state.business_groups, g0.id = gid →
        ∀ b0 ∈ g0.backend_containers, b0.id ≠ b.id
  | _, _ => True

/-- Forget (only) the status of backends with the given identifier, by
sending it to the fixed value `Stopped`.  Two documents equal under
`mapBackends (maskStatus bid)` agree on everything except possibly the
status field of backends whose identifier is `bid`. -/
def maskStatus (bid : String) (b : BackendContainer) : BackendContainer :=
  if b.id == bid then { b with status := ContainerStatus.Stopped } else b

/-- Apply `f` to every backend container of a group, whether directly owned
or middleware-scoped. -/
def mapBackendsG (f : BackendContainer → BackendContainer) (g : BusinessGroup) :
    BusinessGroup :=
  { g with
      middlewares := g.middlewares.map (fun m =>
        { m with backend_containers := m.backend_containers.map f }),
      backend_containers := g.backend_containers.map f }

/-- Apply `f` to every backend container of the document. -/
def mapBackends (f : BackendContainer → BackendContainer) (cfg : Config) : Config :=
  setGroups cfg (cfg.app_state.business_groups.map (mapBackendsG f))

/-- All backend health values of the document, in traversal order. -/
def backendHealths (cfg : Config) : List HealthStatus :=
  cfg.app_state.business_groups.flatMap (fun g =>
    g.backend_containers.map (fun b => b.health) ++
      g.middlewares.flatMap (fun m => m.backend_containers.map (fun b => b.health)))

/-- The identity and the two timestamps of a group, the fields claim C10 is
about. -/
def groupStamp (g : BusinessGroup) : String × String × String :=
  (g.id, g.created_at, g.updated_at)

/-- JSON documents, the codomain of `serde_json` serialization.  The
textual pretty-printing and parsing layer of `serde_json` (and the file
read/write around it in `import_config` / `export_config`) is external to
the repository; the round-trip is modelled at the document level. -/
inductive Json where
  | null : Json
  | bool (b : Bool) : Json
  | num (n : Int) : Json
  | str (s : String) : Json
  | arr (items : List Json) : Json
  | obj (fields : List (String × Json)) : Json

/-- Field access of serde-derived deserialization: look the key up in the
object, error when missing (serde errors on a missing field) or when the
value is not an object. -/
def Json.getField : Json → String → Except String Json
  | .obj fields, key =>
    match fields.lookup key with
    | some v => .ok v
    | none => .error ("missing field " ++ key)
  | _, _ => .error "expected object"

/-- Deserialize a string. -/
def Json.asString : Json → Except String String
  | .str s => .ok s
  | _ => .error "expected string"

/-- Deserialize a boolean. -/
def Json.asBool : Json → Except String Bool
  | .bool b => .ok b
  | _ => .error "expected boolean"

/-- Deserialize an unsigned integer (serde rejects negative values for the
unsigned Rust types). -/
def Json.asNat : Json → Except String Nat
  | .num (Int.ofNat n) => .ok n
  | .num (Int.negSucc _) => .error "expected unsigned integer"
  | _ => .error "expected integer"

/-- Deserialize a signed integer. -/
def Json.asInt : Json → Except String Int
  | .num n => .ok n
  | _ => .error "expected integer"

/-- Deserialize an array. -/
def Json.asArr : Json → Except String (List Json)
  | .arr items => .ok items
  | _ => .error "expected array"

/-- Deserialize `Option<String>` (serde: `null` ↦ `None`, string ↦
`Some`). -/
def Json.asOptString : Json → Except String (Option String)
  | .null => .ok none
  | .str s => .ok (some s)
  | _ => .error "expected string or null"

/-- Deserialize every element of an array. -/
def decodeList (dec : Json → Except String α) : List Json → Except String (List α)
  | [] => .ok []
  | j :: js => do
    let x ← dec j
    let xs ← decodeList dec js
    .ok (x :: xs)

/-- Serialization of `GroupStatus` (externally tagged unit variants). -/
def GroupStatus.toJson : GroupStatus → Json
  | .Running => .str "Running"
  | .Stopped => .str "Stopped"
  | .Starting => .str "Starting"
  | .Stopping => .str "Stopping"
  | .Error => .str "Error"

/-- Deserialization of `GroupStatus`. -/
def GroupStatus.fromJson : Json → Except String GroupStatus
  | .str "Running" => .ok .Running
  | .str "Stopped" => .ok .Stopped
  | .str "Starting" => .ok .Starting
  | .str "Stopping" => .ok .Stopping
  | .str "Error" => .ok .Error
  | _ => .error "invalid GroupStatus"

/-- Serialization of `ContainerStatus`. -/
def ContainerStatus.toJson : ContainerStatus → Json
  | .Running => .str "Running"
  | .Stopped => .str "Stopped"
  | .Starting => .str "Starting"
  | .Stopping => .str "Stopping"
  | .Error => .str "Error"

/-- Deserialization of `ContainerStatus`. -/
def ContainerStatus.fromJson : Json → Except String ContainerStatus
  | .str "Running" => .ok .Running
  | .str "Stopped" => .ok .Stopped
  | .str "Starting" => .ok .Starting
  | .str "Stopping" => .ok .Stopping
  | .str "Error" => .ok .Error
  | _ => .error "invalid ContainerStatus"

/-- Serialization of `HealthStatus`. -/
def HealthStatus.toJson : HealthStatus → Json
  | .Healthy => .str "Healthy"
  | .Unhealthy => .str "Unhealthy"
  | .Unknown => .str "Unknown"
  | .Checking => .str "Checking"

/-- Deserialization of `HealthStatus`. -/
def HealthStatus.fromJson : Json → Except String HealthStatus
  | .str "Healthy" => .ok .Healthy
  | .str "Unhealthy" => .ok .Unhealthy
  | .str "Unknown" => .ok .Unknown
  | .str "Checking" => .ok .Checking
  | _ => .error "invalid HealthStatus"

/-- Serialization of `SchedulerStrategy` (serde renames). -/
def SchedulerStrategy.toJson : SchedulerStrategy → Json
  | .Single => .str "single"
  | .ReadWriteSplit => .str "read_write_split"
  | .LoadBalance => .str "load_balance"

/-- Deserialization of `SchedulerStrategy`. -/
def SchedulerStrategy.fromJson : Json → Except String SchedulerStrategy
  | .str "single" => .ok .Single
  | .str "read_write_split" => .ok .ReadWriteSplit
  | .str "load_balance" => .ok .LoadBalance
  | _ => .error "invalid SchedulerStrategy"

/-- Serialization of `CrudApiInstance`. -/
def CrudApiInstance.toJson (c : CrudApiInstance) : Json :=
  .obj [("id", .str c.id), ("url", .str c.url),
    ("instance_type", .str c.instance_type),
    ("timeout", .num (Int.ofNat c.timeout)),
    ("retries", .num (Int.ofNat c.retries))]

/-- Deserialization of `CrudApiInstance`. -/
def CrudApiInstance.fromJson (j : Json) : Except String CrudApiInstance := do
  let id ← (← j.getField "id").asString
  let url ← (← j.getField "url").asString
  let instance_type ← (← j.getField "instance_type").asString
  let timeout ← (← j.getField "timeout").asNat
  let retries ← (← j.getField "retries").asNat
  .ok { id := id, url := url, instance_type := instance_type,
        timeout := timeout, retries := retries }

/-- Serialization of `ServerConfig`. -/
def ServerConfig.toJson (c : ServerConfig) : Json :=
  .obj [("host", .str c.host), ("port", .num (Int.ofNat c.port)),
    ("https", .bool c.https)]

/-- Deserialization of `ServerConfig`. -/
def ServerConfig.fromJson (j : Json) : Except String ServerConfig := do
  let host ← (← j.getField "host").asString
  let port ← (← j.getField "port").asNat
  let https ← (← j.getField "https").asBool
  .ok { host := host, port := port, https := https }

/-- Serialization of `JwtConfig`. -/
def JwtConfig.toJson (c : JwtConfig) : Json :=
  .obj [("secret", .str c.secret), ("expires_in", .num c.expires_in),
    ("refresh_in", .num c.refresh_in)]

/-- Deserialization of `JwtConfig`. -/
def JwtConfig.fromJson (j : Json) : Except String JwtConfig := do
  let secret ← (← j.getField "secret").asString
  let expires_in ← (← j.getField "expires_in").asInt
  let refresh_in ← (← j.getField "refresh_in").asInt
  .ok { secret := secret, expires_in := expires_in, refresh_in := refresh_in }

/-- Serialization of `EncryptionConfig`. -/
def EncryptionConfig.toJson (c : EncryptionConfig) : Json :=
  .obj [("algorithm", .str c.algorithm),
    ("key_length", .num (Int.ofNat c.key_length)),
    ("iterations", .num (Int.ofNat c.iterations)), ("salt", .str c.salt)]

/-- Deserialization of `EncryptionConfig`. -/
def EncryptionConfig.fromJson (j : Json) : Except String EncryptionConfig := do
  let algorithm ← (← j.getField "algorithm").asString
  let key_length ← (← j.getField "key_length").asNat
  let iterations ← (← j.getField "iterations").asNat
  let salt ← (← j.getField "salt").asString
  .ok { algorithm := algorithm, key_length := key_length,
        iterations := iterations, salt := salt }

/-- Serialization of `ServiceRoleConfig`. -/
def ServiceRoleConfig.toJson (c : ServiceRoleConfig) : Json :=
  .obj [("role", .str c.role), ("id", .str c.id)]

/-- Deserialization of `ServiceRoleConfig`. -/
def ServiceRoleConfig.fromJson (j : Json) : Except String ServiceRoleConfig := do
  let role ← (← j.getField "role").asString
  let id ← (← j.getField "id").asString
  .ok { role := role, id := id }

/-- Serialization of `CrudApiConfig`. -/
def CrudApiConfig.toJson (c : CrudApiConfig) : Json :=
  .obj [("instances", .arr (c.instances.map CrudApiInstance.toJson)),
    ("strategy", c.strategy.toJson),
    ("health_check_interval", .num (Int.ofNat c.health_check_interval)),
    ("timeout", .num (Int.ofNat c.timeout)),
    ("retries", .num (Int.ofNat c.retries))]

/-- Deserialization of `CrudApiConfig`. -/
def CrudApiConfig.fromJson (j : Json) : Except String CrudApiConfig := do
  let items ← (← j.getField "instances").asArr
  let instances ← decodeList CrudApiInstance.fromJson items
  let strategy ← SchedulerStrategy.fromJson (← j.getField "strategy")
  let health_check_interval ← (← j.getField "health_check_interval").asNat
  let timeout ← (← j.getField "timeout").asNat
  let retries ← (← j.getField "retries").asNat
  .ok { instances := instances, strategy := strategy,
        health_check_interval := health_check_interval,
        timeout := timeout, retries := retries }

/-- Serialization of `AppConfig`. -/
def AppConfig.toJson (c : AppConfig) : Json :=
  .obj [("server", c.server.toJson), ("jwt", c.jwt.toJson),
    ("encryption", c.encryption.toJson), ("service", c.service.toJson),
    ("crud_api", c.crud_api.toJson)]

/-- Deserialization of `AppConfig`. -/
def AppConfig.fromJson (j : Json) : Except String AppConfig := do
  let server ← ServerConfig.fromJson (← j.getField "server")
  let jwt ← JwtConfig.fromJson (← j.getField "jwt")
  let encryption ← EncryptionConfig.fromJson (← j.getField "encryption")
  let service ← ServiceRoleConfig.fromJson (← j.getField "service")
  let crud_api ← CrudApiConfig.fromJson (← j.getField "crud_api")
  .ok { server := server, jwt := jwt, encryption := encryption,
        service := service, crud_api := crud_api }

/-- Serialization of `BackendContainer`. -/
def BackendContainer.toJson (b : BackendContainer) : Json :=
  .obj [("id", .str b.id), ("name", .str b.name), ("url", .str b.url),
    ("instance_type", .str b.instance_type),
    ("timeout", .num (Int.ofNat b.timeout)),
    ("retries", .num (Int.ofNat b.retries)),
    ("status", b.status.toJson), ("health", b.health.toJson)]

/-- Deserialization of `BackendContainer`. -/
def BackendContainer.fromJson (j : Json) : Except String BackendContainer := do
  let id ← (← j.getField "id").asString
  let name ← (← j.getField "name").asString
  let url ← (← j.getField "url").asString
  let instance_type ← (← j.getField "instance_type").asString
  let timeout ← (← j.getField "timeout").asNat
  let retries ← (← j.getField "retries").asNat
  let status ← ContainerStatus.fromJson (← j.getField "status")
  let health ← HealthStatus.fromJson (← j.getField "health")
  .ok { id := id, name := name, url := url, instance_type := instance_type,
        timeout := timeout, retries := retries, status := status,
        health := health }

/-- Serialization of `MiddlewareContainer`. -/
def MiddlewareContainer.toJson (m : MiddlewareContainer) : Json :=
  .obj [("id", .str m.id), ("name", .str m.name), ("url", .str m.url),
    ("docker_run_params", .str m.docker_run_params),
    ("config", m.config.toJson),
    ("backend_containers", .arr (m.backend_containers.map BackendContainer.toJson)),
    ("status", m.status.toJson), ("health", m.health.toJson),
    ("logs", .arr (m.logs.map Json.str)),
    ("agent_installed", .bool m.agent_installed)]

/-- Deserialization of `MiddlewareContainer`. -/
def MiddlewareContainer.fromJson (j : Json) : Except String MiddlewareContainer := do
  let id ← (← j.getField "id").asString
  let name ← (← j.getField "name").asString
  let url ← (← j.getField "url").asString
  let docker_run_params ← (← j.getField "docker_run_params").asString
  let config ← AppConfig.fromJson (← j.getField "config")
  let bitems ← (← j.getField "backend_containers").asArr
  let backend_containers ← decodeList BackendContainer.fromJson bitems
  let status ← ContainerStatus.fromJson (← j.getField "status")
  let health ← HealthStatus.fromJson (← j.getField "health")
  let litems ← (← j.getField "logs").asArr
  let logs ← decodeList Json.asString litems
  let agent_installed ← (← j.getField "agent_installed").asBool
  .ok { id := id, name := name, url := url,
        docker_run_params := docker_run_params, config := config,
        backend_containers := backend_containers, status := status,
        health := health, logs := logs, agent_installed := agent_installed }

/-- Serialization of `BusinessGroup` (the chrono timestamps serialize as
their RFC 3339 strings, which is how they are modelled here). -/
def BusinessGroup.toJson (g : BusinessGroup) : Json :=
  .obj [("id", .str g.id), ("name", .str g.name),
    ("description", .str g.description),
    ("middlewares", .arr (g.middlewares.map MiddlewareContainer.toJson)),
    ("backend_containers", .arr (g.backend_containers.map BackendContainer.toJson)),
    ("status", g.status.toJson),
    ("created_at", .str g.created_at), ("updated_at", .str g.updated_at)]

/-- Deserialization of `BusinessGroup`. -/
def BusinessGroup.fromJson (j : Json) : Except String BusinessGroup := do
  let id ← (← j.getField "id").asString
  let name ← (← j.getField "name").asString
  let description ← (← j.getField "description").asString
  let mitems ← (← j.getField "middlewares").asArr
  let middlewares ← decodeList MiddlewareContainer.fromJson mitems
  let bitems ← (← j.getField "backend_containers").asArr
  let backend_containers ← decodeList BackendContainer.fromJson bitems
  let status ← GroupStatus.fromJson (← j.getField "status")
  let created_at ← (← j.getField "created_at").asString
  let updated_at ← (← j.getField "updated_at").asString
  .ok { id := id, name := name, description := description,
        middlewares := middlewares, backend_containers := backend_containers,
        status := status, created_at := created_at, updated_at := updated_at }

/-- Serialization of `AppState` (serde serializes `Option<String>` as null
or string). -/
def AppState.toJson (s : AppState) : Json :=
  .obj [("business_groups", .arr (s.business_groups.map BusinessGroup.toJson)),
    ("selected_group_id", match s.selected_group_id with
      | none => .null
      | some v => .str v),
    ("selected_middleware_id", match s.selected_middleware_id with
      | none => .null
      | some v => .str v),
    ("selected_backend_id", match s.selected_backend_id with
      | none => .null
      | some v => .str v)]

/-- Deserialization of `AppState`. -/
def AppState.fromJson (j : Json) : Except String AppState := do
  let gitems ← (← j.getField "business_groups").asArr
  let business_groups ← decodeList BusinessGroup.fromJson gitems
  let selected_group_id ← (← j.getField "selected_group_id").asOptString
  let selected_middleware_id ← (← j.getField "selected_middleware_id").asOptString
  let selected_backend_id ← (← j.getField "selected_backend_id").asOptString
  .ok { business_groups := business_groups,
        selected_group_id := selected_group_id,
        selected_middleware_id := selected_middleware_id,
        selected_backend_id := selected_backend_id }

/-- Serialization of the whole persisted document. -/
def Config.toJson (c : Config) : Json :=
  .obj [("app_state", c.app_state.toJson),
    ("last_opened", .str c.last_opened), ("theme", .str c.theme),
    ("auto_save", .bool c.auto_save),
    ("save_interval", .num (Int.ofNat c.save_interval))]

/-- Deserialization of the whole persisted document. -/
def Config.fromJson (j : Json) : Except String Config := do
  let app_state ← AppState.fromJson (← j.getField "app_state")
  let last_opened ← (← j.getField "last_opened").asString
  let theme ← (← j.getField "theme").asString
  let auto_save ← (← j.getField "auto_save").asBool
  let save_interval ← (← j.getField "save_interval").asNat
  .ok { app_state := app_state, last_opened := last_opened, theme := theme,
        auto_save := auto_save, save_interval := save_interval }

/-- Model of `ConfigManager::export_config`, at the document level: serialize the
document (the subsequent pretty-printing and file write are external). -/
def export_config (c : Config) : Json := c.toJson

/-- Model of `ConfigManager::import_config`, at the document level: deserialize a
document (the preceding file read and text parse are external). -/
def import_config (j : Json) : Except String Config := Config.fromJson j

/-- A small concrete service configuration (mirrors the defaults of
`models.rs`), used to build witness stores. -/
def sampleAppConfig : AppConfig :=
  { server := { host := "0.0.0.0", port := 9999, https := false },
    jwt := { secret := "default_jwt_secret_123456", expires_in := 3600,
             refresh_in := 86400 },
    encryption := { algorithm := "aes-256-gcm", key_length := 32,
                    iterations := 100000, salt := "default_salt" },
    service := { role := "mixed", id := "encryption-01" },
    crud_api := { instances := [], strategy := SchedulerStrategy.ReadWriteSplit,
                  health_check_interval := 30, timeout := 5000, retries := 3 } }

/-- A concrete backend container. -/
def sampleBackend (bid : String) (st : ContainerStatus) (h : HealthStatus) :
    BackendContainer :=
  { id := bid, name := "b", url := "http://localhost:8000",
    instance_type := "write", timeout := 5000, retries := 3, status := st,
    health := h }

/-- A concrete middleware container. -/
def sampleMiddleware (mid : String) (bs : List BackendContainer) :
    MiddlewareContainer :=
  { id := mid, name := "m", url := "http://localhost:9999",
    docker_run_params := "", config := sampleAppConfig,
    backend_containers := bs, status := ContainerStatus.Stopped,
    health := HealthStatus.Unknown, logs := [], agent_installed := false }

/-- A concrete business group. -/
def sampleGroup (gid : String) (ms : List MiddlewareContainer)
    (bs : List BackendContainer) (st : GroupStatus) : BusinessGroup :=
  { id := gid, name := "Prod", description := "", middlewares := ms,
    backend_containers := bs, status := st,
    created_at := "2024-01-01T00:00:00Z",
    updated_at := "2024-01-02T00:00:00Z" }

/-- A concrete persisted document. -/
def sampleConfig (gs : List BusinessGroup) : Config :=
  { app_state :=
      { business_groups := gs, selected_group_id := none,
        selected_middleware_id := none, selected_backend_id := none },
    last_opened := "2024-01-01T00:00:00Z", theme := "dark", auto_save := true,
    save_interval := 30 }

/-- Decidability of the uniqueness invariant, for concrete evaluation. -/
instance (m : MiddlewareContainer) : Decidable (middlewareUnique m) := by
  unfold middlewareUnique
  infer_instance

/-- Decidability of group-level uniqueness. -/
instance (g : BusinessGroup) : Decidable (groupUnique g) := by
  unfold groupUnique
  infer_instance

/-- Decidability of store-level uniqueness. -/
instance (cfg : Config) : Decidable (storeUnique cfg) := by
  unfold storeUnique
  infer_instance

/-- Decidability of payload freshness. -/
instance (op : Op) (cfg : Config) : Decidable (opFresh op cfg) := by
  cases op <;> (unfold opFresh; infer_instance)

/-- Inversion for `Except.map`. -/
theorem exceptMap_ok {f : α → β} {x : Except SvcError α} {b : β}
    (h : x.map f = .ok b) : ∃ a, x = .ok a ∧ b = f a := by
  cases x with
  | error e => simp [Except.map] at h
  | ok a => refine ⟨a, rfl, ?_⟩; simpa [Except.map] using h.symm

/-- Inversion for `Except.bind`. -/
theorem exceptBind_ok {x : Except SvcError α} {f : α → Except SvcError β}
    {b : β} (h : x.bind f = .ok b) : ∃ a, x = .ok a ∧ f a = .ok b := by
  cases x with
  | error e => simp [Except.bind] at h
  | ok a => exact ⟨a, rfl, by simpa [Except.bind] using h⟩

/-- Lemma: `mutateList` bails with its own error when no element matches. -/
theorem mutateList_none {p : α → Bool} {k : α → Except SvcError α}
    {e : SvcError} {xs : List α} (h : ∀ x ∈ xs, p x = false) :
    mutateList p k e xs = .error e := by
  induction xs with
  | nil => rfl
  | cons x xs ih =>
    have hx : p x = false := h x (by simp)
    simp [mutateList, hx, ih (fun z hz => h z (by simp [hz])), Except.map]

/-- Success inversion for `mutateList`: the list decomposes around the first
matching element, which is the only one the body was applied to. -/
theorem mutateList_ok {p : α → Bool} {k : α → Except SvcError α}
    {e : SvcError} {xs ys : List α} (h : mutateList p k e xs = .ok ys) :
    ∃ pre x y post, xs = pre ++ x :: post ∧ ys = pre ++ y :: post ∧
      (∀ z ∈ pre, p z = false) ∧ p x = true ∧ k x = .ok y := by
  induction xs generalizing ys with
  | nil => simp [mutateList] at h
  | cons x xs ih =>
    have heq : mutateList p k e (x :: xs) =
        if p x then (k x).map (· :: xs)
        else (mutateList p k e xs).map (x :: ·) := rfl
    by_cases hx : p x = true
    · rw [heq, if_pos hx] at h
      obtain ⟨y, hk, hy⟩ := exceptMap_ok h
      exact ⟨[], x, y, xs, by simp, by simp [hy], by simp, hx, hk⟩
    · rw [heq, if_neg hx] at h
      obtain ⟨ys0, hrec, hy⟩ := exceptMap_ok h
      obtain ⟨pre, a, b, post, hxs, hys, hpre, hpa, hk⟩ := ih hrec
      refine ⟨x :: pre, a, b, post, by simp [hxs], by simp [hy, hys], ?_, hpa, hk⟩
      intro z hz
      rcases List.mem_cons.mp hz with h1 | h2
      · subst h1; exact Bool.eq_false_iff.mpr hx
      · exact hpre z h2

/-- If the first match (under `find?`) exists and the body succeeds on it,
`mutateList` succeeds. -/
theorem mutateList_ok_of_find {p : α → Bool} {k : α → Except SvcError α}
    {e : SvcError} {xs : List α} {x y : α}
    (hf : xs.find? p = some x) (hk : k x = .ok y) :
    ∃ ys, mutateList p k e xs = .ok ys := by
  induction xs with
  | nil => simp at hf
  | cons z zs ih =>
    by_cases hz : p z = true
    · rw [List.find?_cons_of_pos _ hz] at hf
      cases hf
      exact ⟨y :: zs, by simp [mutateList, hz, hk, Except.map]⟩
    · have hz' : p z = false := Bool.eq_false_iff.mpr hz
      rw [List.find?_cons_of_neg _ (by simp [hz'])] at hf
      obtain ⟨ys, hys⟩ := ih hf
      exact ⟨z :: ys, by simp [mutateList, hz', hys, Except.map]⟩

/-- If the first match exists and the body bails on it, `mutateList`
propagates the body's error. -/
theorem mutateList_err_of_find {p : α → Bool} {k : α → Except SvcError α}
    {e e' : SvcError} {xs : List α} {x : α}
    (hf : xs.find? p = some x) (hk : k x = .error e') :
    mutateList p k e xs = .error e' := by
  induction xs with
  | nil => simp at hf
  | cons z zs ih =>
    by_cases hz : p z = true
    · rw [List.find?_cons_of_pos _ hz] at hf
      cases hf
      simp [mutateList, hz, hk, Except.map]
    · have hz' : p z = false := Bool.eq_false_iff.mpr hz
      rw [List.find?_cons_of_neg _ (by simp [hz'])] at hf
      simp [mutateList, hz', ih hf, Except.map]

/-- A projection respected by the body is respected by the whole
`mutateList` result, elementwise. -/
theorem mutateList_map_eq {p : α → Bool} {k : α → Except SvcError α}
    {e : SvcError} {xs ys : List α} {f : α → β}
    (hk : ∀ x y, x ∈ xs → p x = true → k x = .ok y → f y = f x)
    (h : mutateList p k e xs = .ok ys) : ys.map f = xs.map f := by
  obtain ⟨pre, x, y, post, hxs, hys, _, hpx, hkx⟩ := mutateList_ok h
  subst hxs hys
  simp [hk x y (by simp) hpx hkx]

/-- A `Bool` invariant holding on every element and preserved by the body
holds on every element of the result. -/
theorem mutateList_all {p q : α → Bool} {k : α → Except SvcError α}
    {e : SvcError} {xs ys : List α}
    (hall : xs.all q = true)
    (hk : ∀ x y, x ∈ xs → p x = true → q x = true → k x = .ok y → q y = true)
    (h : mutateList p k e xs = .ok ys) : ys.all q = true := by
  obtain ⟨pre, x, y, post, hxs, hys, _, hpx, hkx⟩ := mutateList_ok h
  subst hxs hys
  simp only [List.all_append, List.all_cons, Bool.and_eq_true] at hall ⊢
  exact ⟨hall.1, hk x y (by simp) hpx hall.2.1 hkx, hall.2.2⟩

/-- Every element of a `mutateList` result is an untouched element of the
input or the body's output on the first match. -/
theorem mutateList_mem {p : α → Bool} {k : α → Except SvcError α}
    {e : SvcError} {xs ys : List α}
    (h : mutateList p k e xs = .ok ys) :
    ∀ y0 ∈ ys, y0 ∈ xs ∨ ∃ x, x ∈ xs ∧ p x = true ∧ k x = .ok y0 := by
  obtain ⟨pre, x, y, post, hxs, hys, _, hpx, hkx⟩ := mutateList_ok h
  subst hxs hys
  intro y0 hy0
  rcases List.mem_append.mp hy0 with h1 | h2
  · exact Or.inl (List.mem_append.mpr (Or.inl h1))
  · rcases List.mem_cons.mp h2 with h3 | h4
    · exact Or.inr ⟨x, by simp, hpx, h3 ▸ hkx⟩
    · exact Or.inl (by simp [h4])

/-- Lemma: `find?` over a decomposed list whose prefix has no match. -/
theorem find?_decomp {p : α → Bool} {pre post : List α} {x : α}
    (hpre : ∀ z ∈ pre, p z = false) (hx : p x = true) :
    (pre ++ x :: post).find? p = some x := by
  induction pre with
  | nil => simp [List.find?_cons_of_pos _ hx]
  | cons z zs ih =>
    rw [List.cons_append, List.find?_cons_of_neg _ (by simp [hpre z (by simp)])]
    exact ih (fun z hz => hpre z (by simp [hz]))

/-- Success inversion for `withGroup`. -/
theorem withGroup_ok {gid : String} {k : BusinessGroup → Except SvcError BusinessGroup}
    {cfg cfg' : Config} (h : withGroup gid k cfg = .ok cfg') :
    ∃ ys, mutateList (fun g => g.id == gid) k (.groupNotFound gid)
        cfg.app_state.business_groups = .ok ys ∧ cfg' = setGroups cfg ys := by
  unfold withGroup at h
  obtain ⟨ys, h1, h2⟩ := exceptMap_ok h
  exact ⟨ys, h1, h2⟩

/-- The group list of `setGroups`. -/
theorem setGroups_groups (cfg : Config) (bgs : List BusinessGroup) :
    (setGroups cfg bgs).app_state.business_groups = bgs := rfl

/-- Cleanliness of a document is cleanliness of all its groups. -/
theorem configClean_setGroups (cfg : Config) (bgs : List BusinessGroup) :
    configClean (setGroups cfg bgs) = bgs.all groupClean := rfl

/-- Cleanliness propagates through `withGroup` when the group body preserves
it. -/
theorem withGroup_clean {gid : String}
    {k : BusinessGroup → Except SvcError BusinessGroup} {cfg cfg' : Config}
    (hc : configClean cfg = true)
    (hk : ∀ g g', (g.id == gid) = true → groupClean g = true →
        k g = .ok g' → groupClean g' = true)
    (h : withGroup gid k cfg = .ok cfg') : configClean cfg' = true := by
  obtain ⟨ys, h1, h2⟩ := withGroup_ok h
  subst h2
  rw [configClean_setGroups]
  exact mutateList_all hc (fun g g' _ hp hq hkg => hk g g' hp hq hkg) h1

/-- Cleanliness propagates through `withMiddleware` when the middleware body
preserves it. -/
theorem withMiddleware_clean {gid mid : String}
    {k : MiddlewareContainer → Except SvcError MiddlewareContainer}
    {cfg cfg' : Config}
    (hc : configClean cfg = true)
    (hk : ∀ m m', (m.id == mid) = true → middlewareClean m = true →
        k m = .ok m' → middlewareClean m' = true)
    (h : withMiddleware gid mid k cfg = .ok cfg') : configClean cfg' = true := by
  unfold withMiddleware at h
  refine withGroup_clean hc ?_ h
  intro g g' _ hg hkg
  obtain ⟨ms, hms, hgeq⟩ := exceptMap_ok hkg
  subst hgeq
  simp only [groupClean, Bool.and_eq_true] at hg ⊢
  exact ⟨⟨hg.1.1, mutateList_all hg.1.2 (fun m m' _ hp hq hkm => hk m m' hp hq hkm) hms⟩, hg.2⟩

/-- Cleanliness propagates through `withBackendIn` when the backend body
preserves it. -/
theorem withBackendIn_clean {gid : String} {mid : Option String} {bid : String}
    {k : BackendContainer → Except SvcError BackendContainer} {cfg cfg' : Config}
    (hc : configClean cfg = true)
    (hk : ∀ b b', (b.id == bid) = true → backendClean b = true →
        k b = .ok b' → backendClean b' = true)
    (h : withBackendIn gid mid bid k cfg = .ok cfg') : configClean cfg' = true := by
  cases mid with
  | some mid =>
    unfold withBackendIn at h
    refine withMiddleware_clean hc ?_ h
    intro m m' _ hm hkm
    obtain ⟨bs, hbs, hmeq⟩ := exceptMap_ok hkm
    subst hmeq
    simp only [middlewareClean, Bool.and_eq_true] at hm ⊢
    exact ⟨hm.1, mutateList_all hm.2 (fun b b' _ hp hq hkb => hk b b' hp hq hkb) hbs⟩
  | none =>
    unfold withBackendIn at h
    refine withGroup_clean hc ?_ h
    intro g g' _ hg hkg
    obtain ⟨bs, hbs, hgeq⟩ := exceptMap_ok hkg
    subst hgeq
    simp only [groupClean, Bool.and_eq_true] at hg ⊢
    exact ⟨hg.1, mutateList_all hg.2 (fun b b' _ hp hq hkb => hk b b' hp hq hkb) hbs⟩

/-- Starting a group yields a non-transient status and touches nothing
else. -/
theorem groupClean_started {g : BusinessGroup} (h : groupClean g = true) :
    groupClean (startedGroup g) = true := by
  simp only [groupClean, Bool.and_eq_true] at h ⊢
  refine ⟨⟨by simp [startedGroup, GroupStatus.isTransient], ?_⟩, ?_⟩
  · simpa [startedGroup] using h.1.2
  · simpa [startedGroup] using h.2

/-- Stopping a group yields a non-transient status and touches nothing
else. -/
theorem groupClean_stopped {g : BusinessGroup} (h : groupClean g = true) :
    groupClean (stoppedGroup g) = true := by
  simp only [groupClean, Bool.and_eq_true] at h ⊢
  refine ⟨⟨by simp [stoppedGroup, GroupStatus.isTransient], ?_⟩, ?_⟩
  · simpa [stoppedGroup] using h.1.2
  · simpa [stoppedGroup] using h.2

/-- Starting a middleware yields a non-transient status and keeps its
backends. -/
theorem middlewareClean_started {m : MiddlewareContainer}
    (h : middlewareClean m = true) : middlewareClean (startedMiddleware m) = true := by
  simp only [middlewareClean, Bool.and_eq_true] at h ⊢
  exact ⟨by simp [startedMiddleware, ContainerStatus.isTransient],
    by simpa [startedMiddleware] using h.2⟩

/-- Stopping a middleware yields a non-transient status and keeps its
backends. -/
theorem middlewareClean_stopped {m : MiddlewareContainer}
    (h : middlewareClean m = true) : middlewareClean (stoppedMiddleware m) = true := by
  simp only [middlewareClean, Bool.and_eq_true] at h ⊢
  exact ⟨by simp [stoppedMiddleware, ContainerStatus.isTransient],
    by simpa [stoppedMiddleware] using h.2⟩

/-- Starting a backend yields the non-transient `Running` status. -/
theorem backendClean_started (b : BackendContainer) :
    backendClean (startedBackend b) = true := rfl

/-- Stopping a backend yields the non-transient `Stopped` status. -/
theorem backendClean_stopped (b : BackendContainer) :
    backendClean (stoppedBackend b) = true := rfl

/-- Any successful operation on a transient-free document with a
transient-free payload yields a transient-free document. -/
theorem runOp_preserves_clean (op : Op) (cfg cfg' : Config)
    (hc : configClean cfg = true) (hp : opClean op = true)
    (h : runOp op cfg = .ok cfg') : configClean cfg' = true := by
  cases op with
  | addGroup g =>
    have he : setGroups cfg (cfg.app_state.business_groups ++ [g]) = cfg' :=
      Except.ok.inj h
    subst he
    rw [configClean_setGroups, List.all_append]
    simp only [opClean] at hp
    simp only [configClean] at hc
    simp [hc, hp]
  | updateGroup g =>
    exact withGroup_clean hc (fun _ _ _ _ hk => by cases hk; exact hp) h
  | deleteGroup gid =>
    have he : setGroups cfg (cfg.app_state.business_groups.filter
        (fun g => g.id != gid)) = cfg' := Except.ok.inj h
    subst he
    rw [configClean_setGroups]
    simp only [configClean, List.all_eq_true] at hc ⊢
    exact fun g hg => hc g (List.mem_of_mem_filter hg)
  | startGroup gid =>
    exact withGroup_clean hc
      (fun g g' _ hg hk => by cases hk; exact groupClean_started hg) h
  | stopGroup gid =>
    exact withGroup_clean hc
      (fun g g' _ hg hk => by cases hk; exact groupClean_stopped hg) h
  | restartGroup gid =>
    obtain ⟨c1, h1, h2⟩ := exceptBind_ok h
    have hc1 := withGroup_clean hc
      (fun g g' _ hg hk => by cases hk; exact groupClean_stopped hg) h1
    exact withGroup_clean hc1
      (fun g g' _ hg hk => by cases hk; exact groupClean_started hg) h2
  | addMiddleware gid m =>
    refine withGroup_clean hc (fun g g' _ hg hk => ?_) h
    cases hk
    simp only [opClean] at hp
    simp only [groupClean, List.all_append, List.all_cons, Bool.and_eq_true] at hg ⊢
    exact ⟨⟨hg.1.1, hg.1.2, hp, rfl⟩, hg.2⟩
  | updateMiddleware gid m =>
    exact withMiddleware_clean hc (fun _ _ _ _ hk => by cases hk; exact hp) h
  | deleteMiddleware gid mid =>
    refine withGroup_clean hc (fun g g' _ hg hk => ?_) h
    cases hk
    simp only [groupClean, Bool.and_eq_true, List.all_eq_true] at hg ⊢
    exact ⟨⟨hg.1.1, fun m hm => hg.1.2 m (List.mem_of_mem_filter hm)⟩, hg.2⟩
  | startMiddleware gid mid =>
    exact withMiddleware_clean hc
      (fun m m' _ hm hk => by cases hk; exact middlewareClean_started hm) h
  | stopMiddleware gid mid =>
    exact withMiddleware_clean hc
      (fun m m' _ hm hk => by cases hk; exact middlewareClean_stopped hm) h
  | restartMiddleware gid mid =>
    obtain ⟨c1, h1, h2⟩ := exceptBind_ok h
    have hc1 := withMiddleware_clean hc
      (fun m m' _ hm hk => by cases hk; exact middlewareClean_stopped hm) h1
    exact withMiddleware_clean hc1
      (fun m m' _ hm hk => by cases hk; exact middlewareClean_started hm) h2
  | addBackendMw gid mid b =>
    refine withMiddleware_clean hc (fun m m' _ hm hk => ?_) h
    cases hk
    simp only [opClean] at hp
    simp only [middlewareClean, List.all_append, List.all_cons, Bool.and_eq_true] at hm ⊢
    exact ⟨hm.1, hm.2, hp, rfl⟩
  | addBackendGrp gid b =>
    refine withGroup_clean hc (fun g g' _ hg hk => ?_) h
    cases hk
    simp only [opClean] at hp
    simp only [groupClean, List.all_append, List.all_cons, Bool.and_eq_true] at hg ⊢
    exact ⟨hg.1, hg.2, hp, rfl⟩
  | updateBackend gid mid b =>
    exact withBackendIn_clean hc (fun _ _ _ _ hk => by cases hk; exact hp) h
  | deleteBackend gid mid bid =>
    cases mid with
    | some mid =>
      refine withMiddleware_clean hc (fun m m' _ hm hk => ?_) h
      cases hk
      simp only [middlewareClean, Bool.and_eq_true, List.all_eq_true] at hm ⊢
      exact ⟨hm.1, fun b hb => hm.2 b (List.mem_of_mem_filter hb)⟩
    | none =>
      refine withGroup_clean hc (fun g g' _ hg hk => ?_) h
      cases hk
      simp only [groupClean, Bool.and_eq_true, List.all_eq_true] at hg ⊢
      exact ⟨hg.1, fun b hb => hg.2 b (List.mem_of_mem_filter hb)⟩
  | startBackend gid mid bid =>
    exact withBackendIn_clean hc
      (fun b b' _ _ hk => by cases hk; exact backendClean_started b) h
  | stopBackend gid mid bid =>
    exact withBackendIn_clean hc
      (fun b b' _ _ hk => by cases hk; exact backendClean_stopped b) h
  | restartBackend gid mid bid =>
    obtain ⟨c1, h1, h2⟩ := exceptBind_ok h
    have hc1 := withBackendIn_clean hc
      (fun b b' _ _ hk => by cases hk; exact backendClean_stopped b) h1
    exact withBackendIn_clean hc1
      (fun b b' _ _ hk => by cases hk; exact backendClean_started b) h2

/-- Appending a fresh element keeps mapped identifiers pairwise distinct. -/
theorem nodup_map_append_singleton {l : List α} {a : α} {f : α → β}
    (h : (l.map f).Nodup) (ha : ∀ x ∈ l, f x ≠ f a) :
    ((l ++ [a]).map f).Nodup := by
  rw [List.map_append]
  refine List.Nodup.append h (List.nodup_singleton _) ?_
  intro y hy hy2
  simp only [List.map_cons, List.map_nil, List.mem_singleton] at hy2
  obtain ⟨x, hx, hfx⟩ := List.mem_map.mp hy
  exact ha x hx (by rw [hfx, hy2])

/-- Filtering keeps mapped identifiers pairwise distinct. -/
theorem nodup_map_filter {l : List α} {f : α → β} {q : α → Bool}
    (h : (l.map f).Nodup) : (((l.filter q).map f)).Nodup :=
  List.Nodup.sublist (List.Sublist.map f (List.filter_sublist l)) h

/-- Identifier uniqueness propagates through `withGroup` when the group body
preserves the group's identifier and its internal uniqueness. -/
theorem withGroup_unique {gid : String}
    {k : BusinessGroup → Except SvcError BusinessGroup} {cfg cfg' : Config}
    (hu : storeUnique cfg)
    (hid : ∀ g g', (g.id == gid) = true → k g = .ok g' → g'.id = g.id)
    (hk : ∀ g g', g ∈ cfg.app_state.business_groups → (g.id == gid) = true →
        groupUnique g → k g = .ok g' → groupUnique g')
    (h : withGroup gid k cfg = .ok cfg') : storeUnique cfg' := by
  obtain ⟨ys, h1, h2⟩ := withGroup_ok h
  subst h2
  constructor
  · rw [setGroups_groups,
      mutateList_map_eq (fun x y _ hp hk2 => hid x y hp hk2) h1]
    exact hu.1
  · rw [setGroups_groups]
    intro g' hg'
    rcases mutateList_mem h1 g' hg' with hmem | ⟨x, hx, hpx, hkx⟩
    · exact hu.2 g' hmem
    · exact hk x g' hx hpx (hu.2 x hx) hkx

/-- Identifier uniqueness propagates through `withMiddleware` when the
middleware body preserves the middleware's identifier and its internal
uniqueness (the body hypothesis also learns in which group the middleware
lives). -/
theorem withMiddleware_unique {gid mid : String}
    {k : MiddlewareContainer → Except SvcError MiddlewareContainer}
    {cfg cfg' : Config}
    (hu : storeUnique cfg)
    (hid : ∀ m m', (m.id == mid) = true → k m = .ok m' → m'.id = m.id)
    (hk : ∀ g, g ∈ cfg.app_state.business_groups → (g.id == gid) = true →
        ∀ m m', m ∈ g.middlewares → (m.id == mid) = true →
          middlewareUnique m → k m = .ok m' → middlewareUnique m')
    (h : withMiddleware gid mid k cfg = .ok cfg') : storeUnique cfg' := by
  unfold withMiddleware at h
  refine withGroup_unique hu (fun g g' _ hkg => ?_) (fun g g' hgm hgp hgu hkg => ?_) h
  · obtain ⟨ms, hms, hgeq⟩ := exceptMap_ok hkg
    subst hgeq
    rfl
  · obtain ⟨ms, hms, hgeq⟩ := exceptMap_ok hkg
    subst hgeq
    obtain ⟨hu1, hu2, hu3⟩ := hgu
    refine ⟨?_, ?_, hu3⟩
    · rw [mutateList_map_eq (fun x y _ hp hk2 => hid x y hp hk2) hms]
      exact hu1
    · intro m' hm'
      rcases mutateList_mem hms m' hm' with hmem | ⟨x, hx, hpx, hkx⟩
      · exact hu2 m' hmem
      · exact hk g hgm hgp x m' hx hpx (hu2 x hx) hkx

/-- Identifier uniqueness propagates through `withBackendIn` whenever the
backend body preserves the backend's identifier (backends own no
children). -/
theorem withBackendIn_unique {gid : String} {mid : Option String} {bid : String}
    {k : BackendContainer → Except SvcError BackendContainer} {cfg cfg' : Config}
    (hu : storeUnique cfg)
    (hid : ∀ b b', (b.id == bid) = true → k b = .ok b' → b'.id = b.id)
    (h : withBackendIn gid mid bid k cfg = .ok cfg') : storeUnique cfg' := by
  cases mid with
  | some mid =>
    unfold withBackendIn at h
    refine withMiddleware_unique hu (fun m m' _ hkm => ?_)
      (fun g _ _ m m' _ _ hmu hkm => ?_) h
    · obtain ⟨bs, hbs, hmeq⟩ := exceptMap_ok hkm
      subst hmeq
      rfl
    · obtain ⟨bs, hbs, hmeq⟩ := exceptMap_ok hkm
      subst hmeq
      unfold middlewareUnique at hmu ⊢
      rw [mutateList_map_eq (fun x y _ hp hk2 => hid x y hp hk2) hbs]
      exact hmu
  | none =>
    unfold withBackendIn at h
    refine withGroup_unique hu (fun g g' _ hkg => ?_)
      (fun g g' _ _ hgu hkg => ?_) h
    · obtain ⟨bs, hbs, hgeq⟩ := exceptMap_ok hkg
      subst hgeq
      rfl
    · obtain ⟨bs, hbs, hgeq⟩ := exceptMap_ok hkg
      subst hgeq
      obtain ⟨hu1, hu2, hu3⟩ := hgu
      refine ⟨hu1, hu2, ?_⟩
      rw [mutateList_map_eq (fun x y _ hp hk2 => hid x y hp hk2) hbs]
      exact hu3

/-- Every operation whose payload is fresh and internally unique preserves
identifier uniqueness in every scope. -/
theorem runOp_preserves_unique (op : Op) (cfg cfg' : Config)
    (hu : storeUnique cfg) (hf : opFresh op cfg)
    (h : runOp op cfg = .ok cfg') : storeUnique cfg' := by
  cases op with
  | addGroup g =>
    have he : setGroups cfg (cfg.app_state.business_groups ++ [g]) = cfg' :=
      Except.ok.inj h
    subst he
    obtain ⟨hfu, hffresh⟩ := hf
    constructor
    · rw [setGroups_groups]
      exact nodup_map_append_singleton hu.1 hffresh
    · rw [setGroups_groups]
      intro g' hg'
      rcases List.mem_append.mp hg' with h1 | h2
      · exact hu.2 g' h1
      · rw [List.mem_singleton.mp h2]; exact hfu
  | updateGroup g =>
    refine withGroup_unique hu (fun g0 g' hp hk => ?_) (fun g0 g' _ hp _ hk => ?_) h
    · cases hk; exact (beq_iff_eq.mp hp).symm
    · cases hk; exact hf
  | deleteGroup gid =>
    have he : setGroups cfg (cfg.app_state.business_groups.filter
        (fun g => g.id != gid)) = cfg' := Except.ok.inj h
    subst he
    constructor
    · rw [setGroups_groups]; exact nodup_map_filter hu.1
    · rw [setGroups_groups]
      exact fun g hg => hu.2 g (List.mem_of_mem_filter hg)
  | startGroup gid =>
    exact withGroup_unique hu (fun g g' _ hk => by cases hk; rfl)
      (fun g g' _ _ hgu hk => by cases hk; exact hgu) h
  | stopGroup gid =>
    exact withGroup_unique hu (fun g g' _ hk => by cases hk; rfl)
      (fun g g' _ _ hgu hk => by cases hk; exact hgu) h
  | restartGroup gid =>
    obtain ⟨c1, h1, h2⟩ := exceptBind_ok h
    have hu1 := withGroup_unique hu (fun g g' _ hk => by cases hk; rfl)
      (fun g g' _ _ hgu hk => by cases hk; exact hgu) h1
    exact withGroup_unique hu1 (fun g g' _ hk => by cases hk; rfl)
      (fun g g' _ _ hgu hk => by cases hk; exact hgu) h2
  | addMiddleware gid m =>
    obtain ⟨hmu, hfresh⟩ := hf
    refine withGroup_unique hu (fun g g' _ hk => by cases hk; rfl)
      (fun g g' hgm hgp hgu hk => ?_) h
    cases hk
    obtain ⟨h1, h2, h3⟩ := hgu
    refine ⟨?_, ?_, h3⟩
    · exact nodup_map_append_singleton h1
        (hfresh g hgm (beq_iff_eq.mp hgp))
    · intro m0 hm0
      rcases List.mem_append.mp hm0 with ha | hb
      · exact h2 m0 ha
      · rw [List.mem_singleton.mp hb]; exact hmu
  | updateMiddleware gid m =>
    refine withMiddleware_unique hu (fun m0 m' hp hk => ?_)
      (fun g _ _ m0 m' _ hp _ hk => ?_) h
    · cases hk; exact (beq_iff_eq.mp hp).symm
    · cases hk; exact hf
  | deleteMiddleware gid mid =>
    refine withGroup_unique hu (fun g g' _ hk => by cases hk; rfl)
      (fun g g' _ _ hgu hk => ?_) h
    cases hk
    obtain ⟨h1, h2, h3⟩ := hgu
    exact ⟨nodup_map_filter h1,
      fun m hm => h2 m (List.mem_of_mem_filter hm), h3⟩
  | startMiddleware gid mid =>
    exact withMiddleware_unique hu (fun m m' _ hk => by cases hk; rfl)
      (fun g _ _ m m' _ _ hmu hk => by cases hk; exact hmu) h
  | stopMiddleware gid mid =>
    exact withMiddleware_unique hu (fun m m' _ hk => by cases hk; rfl)
      (fun g _ _ m m' _ _ hmu hk => by cases hk; exact hmu) h
  | restartMiddleware gid mid =>
    obtain ⟨c1, h1, h2⟩ := exceptBind_ok h
    have hu1 := withMiddleware_unique hu (fun m m' _ hk => by cases hk; rfl)
      (fun g _ _ m m' _ _ hmu hk => by cases hk; exact hmu) h1
    exact withMiddleware_unique hu1 (fun m m' _ hk => by cases hk; rfl)
      (fun g _ _ m m' _ _ hmu hk => by cases hk; exact hmu) h2
  | addBackendMw gid mid b =>
    refine withMiddleware_unique hu (fun m m' _ hk => by cases hk; rfl)
      (fun g hgm hgp m m' hmm hmp hmu hk => ?_) h
    cases hk
    unfold middlewareUnique at hmu ⊢
    exact nodup_map_append_singleton hmu
      (hf g hgm (beq_iff_eq.mp hgp) m hmm (beq_iff_eq.mp hmp))
  | addBackendGrp gid b =>
    refine withGroup_unique hu (fun g g' _ hk => by cases hk; rfl)
      (fun g g' hgm hgp hgu hk => ?_) h
    cases hk
    obtain ⟨h1, h2, h3⟩ := hgu
    exact ⟨h1, h2, nodup_map_append_singleton h3
      (hf g hgm (beq_iff_eq.mp hgp))⟩
  | updateBackend gid mid b =>
    exact withBackendIn_unique hu
      (fun b0 b' hp hk => by cases hk; exact (beq_iff_eq.mp hp).symm) h
  | deleteBackend gid mid bid =>
    cases mid with
    | some mid =>
      refine withMiddleware_unique hu (fun m m' _ hk => by cases hk; rfl)
        (fun g _ _ m m' _ _ hmu hk => ?_) h
      cases hk
      exact nodup_map_filter hmu
    | none =>
      refine withGroup_unique hu (fun g g' _ hk => by cases hk; rfl)
        (fun g g' _ _ hgu hk => ?_) h
      cases hk
      obtain ⟨h1, h2, h3⟩ := hgu
      exact ⟨h1, h2, nodup_map_filter h3⟩
  | startBackend gid mid bid =>
    exact withBackendIn_unique hu (fun b b' _ hk => by cases hk; rfl) h
  | stopBackend gid mid bid =>
    exact withBackendIn_unique hu (fun b b' _ hk => by cases hk; rfl) h
  | restartBackend gid mid bid =>
    obtain ⟨c1, h1, h2⟩ := exceptBind_ok h
    have hu1 := withBackendIn_unique hu (fun b b' _ hk => by cases hk; rfl) h1
    exact withBackendIn_unique hu1 (fun b b' _ hk => by cases hk; rfl) h2

/-- Masking commutes with the start mutation on a matching backend (the
only kind the services ever mutate). -/
theorem maskStatus_startedBackend {bid : String} {b : BackendContainer}
    (h : (b.id == bid) = true) :
    maskStatus bid (startedBackend b) = maskStatus bid b := by
  unfold maskStatus startedBackend
  simp [h]

/-- Masking commutes with the stop mutation on a matching backend. -/
theorem maskStatus_stoppedBackend {bid : String} {b : BackendContainer}
    (h : (b.id == bid) = true) :
    maskStatus bid (stoppedBackend b) = maskStatus bid b := by
  unfold maskStatus stoppedBackend
  simp [h]

/-- Lemma: `backendHealths` ignores a backend transformation that preserves
health. -/
theorem backendHealths_mapBackends (f : BackendContainer → BackendContainer)
    (hf : ∀ b, (f b).health = b.health) (cfg : Config) :
    backendHealths (mapBackends f cfg) = backendHealths cfg := by
  unfold backendHealths mapBackends mapBackendsG
  rw [setGroups_groups]
  simp [List.flatMap_map, List.map_map, Function.comp_def, hf]

/-- The mask keeps health. -/
theorem maskStatus_health (bid : String) (b : BackendContainer) :
    (maskStatus bid b).health = b.health := by
  unfold maskStatus
  by_cases h : (b.id == bid) = true
  · simp [h]
  · simp [h]

/-- Setting groups twice keeps only the last value. -/
theorem setGroups_setGroups (cfg : Config) (ys xs : List BusinessGroup) :
    setGroups (setGroups cfg ys) xs = setGroups cfg xs := rfl

/-- Everything but the status of the targeted backend is untouched by a
successful `withBackendIn` whose body respects the mask. -/
theorem withBackendIn_mask {gid : String} {mid : Option String} {bid : String}
    {k : BackendContainer → Except SvcError BackendContainer} {cfg cfg' : Config}
    (hk : ∀ b b', (b.id == bid) = true → k b = .ok b' →
        maskStatus bid b' = maskStatus bid b)
    (h : withBackendIn gid mid bid k cfg = .ok cfg') :
    mapBackends (maskStatus bid) cfg' = mapBackends (maskStatus bid) cfg := by
  cases mid with
  | none =>
    unfold withBackendIn at h
    obtain ⟨ys, h1, h2⟩ := withGroup_ok h
    subst h2
    unfold mapBackends
    rw [setGroups_groups, setGroups_setGroups]
    congr 1
    refine mutateList_map_eq (fun g g' _ hp hkg => ?_) h1
    obtain ⟨bs, hbs, hgeq⟩ := exceptMap_ok hkg
    subst hgeq
    have hbsf : bs.map (maskStatus bid) =
        g.backend_containers.map (maskStatus bid) :=
      mutateList_map_eq (fun b b' _ hp2 hkb => hk b b' hp2 hkb) hbs
    simp [mapBackendsG, hbsf]
  | some mid =>
    unfold withBackendIn withMiddleware at h
    obtain ⟨ys, h1, h2⟩ := withGroup_ok h
    subst h2
    unfold mapBackends
    rw [setGroups_groups, setGroups_setGroups]
    congr 1
    refine mutateList_map_eq (fun g g' _ hp hkg => ?_) h1
    obtain ⟨ms, hms, hgeq⟩ := exceptMap_ok hkg
    subst hgeq
    have hmsf : ms.map (fun m =>
        { m with backend_containers :=
            m.backend_containers.map (maskStatus bid) }) =
        g.middlewares.map (fun m =>
          { m with backend_containers :=
              m.backend_containers.map (maskStatus bid) }) := by
      refine mutateList_map_eq (fun m m' _ hp2 hkm => ?_) hms
      obtain ⟨bs, hbs, hmeq⟩ := exceptMap_ok hkm
      subst hmeq
      have hbsf : bs.map (maskStatus bid) =
          m.backend_containers.map (maskStatus bid) :=
        mutateList_map_eq (fun b b' _ hp3 hkb => hk b b' hp3 hkb) hbs
      simp [hbsf]
    simp [mapBackendsG, hmsf]

/-- Transfer membership along an equality of mapped lists. -/
theorem exists_of_map_eq {f : α → β} {xs ys : List α}
    (h : ys.map f = xs.map f) : ∀ y ∈ ys, ∃ x ∈ xs, f x = f y := by
  intro y hy
  have hmem : f y ∈ ys.map f := List.mem_map_of_mem f hy
  rw [h] at hmem
  obtain ⟨x, hx, hfx⟩ := List.mem_map.mp hmem
  exact ⟨x, hx, hfx⟩

/-- A successful `withGroup` whose body keeps id and timestamps keeps the
whole list of stamps. -/
theorem withGroup_stamp {gid : String}
    {k : BusinessGroup → Except SvcError BusinessGroup} {cfg cfg' : Config}
    (hk : ∀ g g', (g.id == gid) = true → k g = .ok g' →
        groupStamp g' = groupStamp g)
    (h : withGroup gid k cfg = .ok cfg') :
    cfg'.app_state.business_groups.map groupStamp =
      cfg.app_state.business_groups.map groupStamp := by
  obtain ⟨ys, h1, h2⟩ := withGroup_ok h
  subst h2
  rw [setGroups_groups]
  exact mutateList_map_eq (fun g g' _ hp hkg => hk g g' hp hkg) h1

/-- Lemma: `withGroup` fails with `groupNotFound` when no stored group has the
requested identifier. -/
theorem withGroup_absent {gid : String}
    {k : BusinessGroup → Except SvcError BusinessGroup} {cfg : Config}
    (h : ∀ g ∈ cfg.app_state.business_groups, g.id ≠ gid) :
    withGroup gid k cfg = .error (.groupNotFound gid) := by
  unfold withGroup
  rw [mutateList_none (fun g hg => by
    simpa using h g hg)]
  rfl

/-- Lemma: `withGroup` succeeds when the first matching group exists and the body
succeeds on it. -/
theorem withGroup_ok_of_find {gid : String}
    {k : BusinessGroup → Except SvcError BusinessGroup} {cfg : Config}
    {g g' : BusinessGroup}
    (hf : cfg.app_state.business_groups.find? (fun x => x.id == gid) = some g)
    (hk : k g = .ok g') : ∃ cfg2, withGroup gid k cfg = .ok cfg2 := by
  obtain ⟨ys, hys⟩ := mutateList_ok_of_find hf hk
    (e := SvcError.groupNotFound gid)
  exact ⟨setGroups cfg ys, by unfold withGroup; rw [hys]; rfl⟩

/-- Lemma: `withGroup` propagates the body's error on the first matching group. -/
theorem withGroup_err_of_find {gid : String}
    {k : BusinessGroup → Except SvcError BusinessGroup} {cfg : Config}
    {g : BusinessGroup} {e : SvcError}
    (hf : cfg.app_state.business_groups.find? (fun x => x.id == gid) = some g)
    (hk : k g = .error e) : withGroup gid k cfg = .error e := by
  unfold withGroup
  rw [mutateList_err_of_find hf hk]
  rfl

/-- After a successful start, the group looked up by the same identifier has
status `Running`. -/
theorem start_business_group_status {gid : String} {cfg cfg' : Config}
    (h : start_business_group gid cfg = .ok cfg') :
    ∃ g, cfg'.app_state.business_groups.find? (fun g => g.id == gid) = some g ∧
      g.status = GroupStatus.Running := by
  obtain ⟨ys, h1, h2⟩ := withGroup_ok h
  subst h2
  obtain ⟨pre, x, y, post, hxs, hys, hpre, hpx, hkx⟩ := mutateList_ok h1
  obtain rfl : startedGroup x = y := Except.ok.inj hkx
  subst hys
  rw [setGroups_groups]
  refine ⟨startedGroup x, find?_decomp hpre ?_, rfl⟩
  simpa [startedGroup] using hpx

/-- After a successful stop, the group looked up by the same identifier has
status `Stopped`. -/
theorem stop_business_group_status {gid : String} {cfg cfg' : Config}
    (h : stop_business_group gid cfg = .ok cfg') :
    ∃ g, cfg'.app_state.business_groups.find? (fun g => g.id == gid) = some g ∧
      g.status = GroupStatus.Stopped := by
  obtain ⟨ys, h1, h2⟩ := withGroup_ok h
  subst h2
  obtain ⟨pre, x, y, post, hxs, hys, hpre, hpx, hkx⟩ := mutateList_ok h1
  obtain rfl : stoppedGroup x = y := Except.ok.inj hkx
  subst hys
  rw [setGroups_groups]
  refine ⟨stoppedGroup x, find?_decomp hpre ?_, rfl⟩
  simpa [stoppedGroup] using hpx

/-- A start on a present identifier succeeds. -/
theorem start_business_group_of_find {gid : String} {cfg : Config}
    {g : BusinessGroup}
    (hf : cfg.app_state.business_groups.find? (fun x => x.id == gid) = some g) :
    ∃ cfg2, start_business_group gid cfg = .ok cfg2 :=
  withGroup_ok_of_find hf rfl

/-- A stop on a present identifier succeeds. -/
theorem stop_business_group_of_find {gid : String} {cfg : Config}
    {g : BusinessGroup}
    (hf : cfg.app_state.business_groups.find? (fun x => x.id == gid) = some g) :
    ∃ cfg2, stop_business_group gid cfg = .ok cfg2 :=
  withGroup_ok_of_find hf rfl

/-- Round-trip for `GroupStatus`. -/
theorem GroupStatus_roundtrip (s : GroupStatus) :
    GroupStatus.fromJson s.toJson = .ok s := by cases s <;> rfl

/-- Round-trip for `ContainerStatus`. -/
theorem ContainerStatus_roundtrip (s : ContainerStatus) :
    ContainerStatus.fromJson s.toJson = .ok s := by cases s <;> rfl

/-- Round-trip for `HealthStatus`. -/
theorem HealthStatus_roundtrip (s : HealthStatus) :
    HealthStatus.fromJson s.toJson = .ok s := by cases s <;> rfl

/-- Round-trip for `SchedulerStrategy`. -/
theorem SchedulerStrategy_roundtrip (s : SchedulerStrategy) :
    SchedulerStrategy.fromJson s.toJson = .ok s := by cases s <;> rfl

/-- Round-trip of array deserialization against elementwise round-trip. -/
theorem decodeList_roundtrip (dec : Json → Except String α) (enc : α → Json)
    (h : ∀ x, dec (enc x) = .ok x) (xs : List α) :
    decodeList dec (xs.map enc) = .ok xs := by
  induction xs with
  | nil => rfl
  | cons x xs ih => simp [decodeList, h, ih, Bind.bind, Except.bind]

/-- Round-trip for `CrudApiInstance`. -/
theorem CrudApiInstance_roundtrip (c : CrudApiInstance) :
    CrudApiInstance.fromJson c.toJson = .ok c := by cases c; rfl

/-- Round-trip for `ServerConfig`. -/
theorem ServerConfig_roundtrip (c : ServerConfig) :
    ServerConfig.fromJson c.toJson = .ok c := by cases c; rfl

/-- Round-trip for `JwtConfig`. -/
theorem JwtConfig_roundtrip (c : JwtConfig) :
    JwtConfig.fromJson c.toJson = .ok c := by cases c; rfl

/-- Round-trip for `EncryptionConfig`. -/
theorem EncryptionConfig_roundtrip (c : EncryptionConfig) :
    EncryptionConfig.fromJson c.toJson = .ok c := by cases c; rfl

/-- Round-trip for `ServiceRoleConfig`. -/
theorem ServiceRoleConfig_roundtrip (c : ServiceRoleConfig) :
    ServiceRoleConfig.fromJson c.toJson = .ok c := by cases c; rfl

/-- Round-trip for `CrudApiConfig`. -/
theorem CrudApiConfig_roundtrip (c : CrudApiConfig) :
    CrudApiConfig.fromJson c.toJson = .ok c := by
  cases c with
  | mk i s hci t r =>
    simp [CrudApiConfig.fromJson, CrudApiConfig.toJson, Json.getField,
      List.lookup, Json.asArr, Json.asNat, Bind.bind, Except.bind,
      decodeList_roundtrip CrudApiInstance.fromJson CrudApiInstance.toJson
        CrudApiInstance_roundtrip,
      SchedulerStrategy_roundtrip]

/-- Round-trip for `AppConfig`. -/
theorem AppConfig_roundtrip (c : AppConfig) :
    AppConfig.fromJson c.toJson = .ok c := by
  cases c with
  | mk sv j e svc ca =>
    simp [AppConfig.fromJson, AppConfig.toJson, Json.getField, List.lookup,
      Bind.bind, Except.bind, ServerConfig_roundtrip, JwtConfig_roundtrip,
      EncryptionConfig_roundtrip, ServiceRoleConfig_roundtrip,
      CrudApiConfig_roundtrip]

/-- Round-trip for `BackendContainer`. -/
theorem BackendContainer_roundtrip (b : BackendContainer) :
    BackendContainer.fromJson b.toJson = .ok b := by
  cases b with
  | mk id name url it t r st h =>
    simp [BackendContainer.fromJson, BackendContainer.toJson, Json.getField,
      List.lookup, Json.asString, Json.asNat, Bind.bind, Except.bind,
      ContainerStatus_roundtrip, HealthStatus_roundtrip]

/-- Round-trip for `MiddlewareContainer`. -/
theorem MiddlewareContainer_roundtrip (m : MiddlewareContainer) :
    MiddlewareContainer.fromJson m.toJson = .ok m := by
  cases m with
  | mk id name url drp cfg bcs st h logs ai =>
    simp [MiddlewareContainer.fromJson, MiddlewareContainer.toJson,
      Json.getField, List.lookup, Json.asString, Json.asArr, Json.asBool,
      Bind.bind, Except.bind, AppConfig_roundtrip,
      decodeList_roundtrip BackendContainer.fromJson BackendContainer.toJson
        BackendContainer_roundtrip,
      decodeList_roundtrip Json.asString Json.str (fun s => rfl),
      ContainerStatus_roundtrip, HealthStatus_roundtrip]

/-- Round-trip for `BusinessGroup`. -/
theorem BusinessGroup_roundtrip (g : BusinessGroup) :
    BusinessGroup.fromJson g.toJson = .ok g := by
  cases g with
  | mk id name desc ms bs st ca ua =>
    simp [BusinessGroup.fromJson, BusinessGroup.toJson, Json.getField,
      List.lookup, Json.asString, Json.asArr, Bind.bind, Except.bind,
      decodeList_roundtrip MiddlewareContainer.fromJson
        MiddlewareContainer.toJson MiddlewareContainer_roundtrip,
      decodeList_roundtrip BackendContainer.fromJson BackendContainer.toJson
        BackendContainer_roundtrip,
      GroupStatus_roundtrip]

/-- Round-trip for `AppState`. -/
theorem AppState_roundtrip (s : AppState) :
    AppState.fromJson s.toJson = .ok s := by
  cases s with
  | mk gs g m b =>
    cases g <;> cases m <;> cases b <;>
    simp [AppState.fromJson, AppState.toJson, Json.getField, List.lookup,
      Json.asArr, Json.asOptString, Bind.bind, Except.bind,
      decodeList_roundtrip BusinessGroup.fromJson BusinessGroup.toJson
        BusinessGroup_roundtrip]

/-- Round-trip for the whole persisted document. -/
theorem Config_roundtrip (c : Config) : Config.fromJson c.toJson = .ok c := by
  cases c with
  | mk s lo th a si =>
    simp [Config.fromJson, Config.toJson, Json.getField, List.lookup,
      Json.asString, Json.asBool, Json.asNat, Bind.bind, Except.bind,
      AppState_roundtrip]

/-- Claim C8: importing the export of any valid document yields the document
back (`import(export(doc)) == doc`, at the JSON document level; the textual
layer is `serde_json`'s). -/
theorem import_export_roundtrip (c : Config) :
    import_config (export_config c) = .ok c := Config_roundtrip c

/-- Claim C2: `start_business_group` on an identifier matching no stored
group returns the group-level NotFound error, creates nothing, and the
persisted store is exactly the loaded one (no save happens on this path,
whether or not a save would have succeeded). -/
theorem start_nonexistent_group (gid : String) (cfg : Config) (saveOk : Bool)
    (h : ∀ g ∈ cfg.app_state.business_groups, g.id ≠ gid) :
    runStore (start_business_group gid) saveOk cfg =
      (.error (.groupNotFound gid), cfg) := by
  have h1 : start_business_group gid cfg = .error (.groupNotFound gid) :=
    withGroup_absent h
  unfold runStore
  rw [h1]

/-- Witness for C2 at a concrete store holding one group `g1`. -/
theorem start_nonexistent_group_witness :
    runStore (start_business_group "missing") true
        (sampleConfig [sampleGroup "g1" [] [] GroupStatus.Running]) =
      (.error (.groupNotFound "missing"),
        sampleConfig [sampleGroup "g1" [] [] GroupStatus.Running]) :=
  start_nonexistent_group "missing"
    (sampleConfig [sampleGroup "g1" [] [] GroupStatus.Running]) true
    (by decide)

/-- Claim C1, as stated, fails on the code: `add_business_group` stores the
caller-supplied group verbatim, so adding a group whose status is the
transient `Starting` succeeds and leaves a `Starting` entity in the
persisted document after a successful Entity Service operation. -/
theorem transient_status_counterexample :
    ∃ cfg', add_business_group (sampleGroup "g1" [] [] GroupStatus.Starting)
        (sampleConfig []) = .ok cfg' ∧ configClean cfg' = false :=
  ⟨_, rfl, by decide⟩

/-- Claim C1 (amended): `start_business_group` sets the found group's status
to `Starting` and immediately to `Running` within one load-mutate-save cycle
(the persisted status is `Running`), `stop_business_group` symmetrically
ends at `Stopped`; and no Entity Service operation leaves any group,
middleware, or backend with a transient `Starting`/`Stopping` status in the
persisted document — provided the loaded document was transient-free and the
caller-supplied payload of an add/update operation (stored verbatim by the
code) is transient-free. -/
theorem no_transient_status_after_ops :
    (∀ (op : Op) (cfg cfg' : Config), configClean cfg = true →
        opClean op = true → runOp op cfg = .ok cfg' →
        configClean cfg' = true) ∧
    (∀ (gid : String) (cfg cfg' : Config),
        start_business_group gid cfg = .ok cfg' →
        ∃ g, cfg'.app_state.business_groups.find? (fun g => g.id == gid) =
            some g ∧ g.status = GroupStatus.Running) ∧
    (∀ (gid : String) (cfg cfg' : Config),
        stop_business_group gid cfg = .ok cfg' →
        ∃ g, cfg'.app_state.business_groups.find? (fun g => g.id == gid) =
            some g ∧ g.status = GroupStatus.Stopped) :=
  ⟨runOp_preserves_clean,
   fun _ _ _ h => start_business_group_status h,
   fun _ _ _ h => stop_business_group_status h⟩

/-- Witness for the amended C1: starting the one stopped group of a concrete
clean store yields a clean store. -/
theorem no_transient_status_after_ops_witness :
    configClean (setGroups
      (sampleConfig [sampleGroup "g1" [] [] GroupStatus.Stopped])
      [startedGroup (sampleGroup "g1" [] [] GroupStatus.Stopped)]) = true :=
  no_transient_status_after_ops.1 (Op.startGroup "g1")
    (sampleConfig [sampleGroup "g1" [] [] GroupStatus.Stopped])
    (setGroups (sampleConfig [sampleGroup "g1" [] [] GroupStatus.Stopped])
      [startedGroup (sampleGroup "g1" [] [] GroupStatus.Stopped)])
    (by decide) (by decide) rfl

/-- Claim C4, as stated, fails on the code: `add_business_group` performs no
duplicate check, so adding a group whose identifier already exists yields a
store with two groups of the same id. -/
theorem duplicate_group_id_counterexample :
    ∃ cfg', add_business_group (sampleGroup "g1" [] [] GroupStatus.Stopped)
        (sampleConfig [sampleGroup "g1" [] [] GroupStatus.Running]) =
          .ok cfg' ∧ ¬ storeUnique cfg' :=
  ⟨_, rfl, by decide⟩

/-- Claim C4 (amended): every successful operation preserves identifier
uniqueness in every scope, provided added entities carry identifiers fresh
in their target scope and added/updated payloads are internally unique
(the adds perform no duplicate check of their own, so freshness is the
caller's obligation). -/
theorem unique_ids_preserved (op : Op) (cfg cfg' : Config)
    (hu : storeUnique cfg) (hf : opFresh op cfg)
    (h : runOp op cfg = .ok cfg') : storeUnique cfg' :=
  runOp_preserves_unique op cfg cfg' hu hf h

/-- Witness for the amended C4: adding a second group with a fresh id to a
concrete one-group store keeps ids unique. -/
theorem unique_ids_preserved_witness :
    storeUnique (setGroups
      (sampleConfig [sampleGroup "g1" [] [] GroupStatus.Running])
      ([sampleGroup "g1" [] [] GroupStatus.Running] ++
        [sampleGroup "g2" [] [] GroupStatus.Stopped])) :=
  unique_ids_preserved (Op.addGroup (sampleGroup "g2" [] [] GroupStatus.Stopped))
    (sampleConfig [sampleGroup "g1" [] [] GroupStatus.Running])
    (setGroups (sampleConfig [sampleGroup "g1" [] [] GroupStatus.Running])
      ([sampleGroup "g1" [] [] GroupStatus.Running] ++
        [sampleGroup "g2" [] [] GroupStatus.Stopped]))
    (by decide) (by decide) rfl

/-- Claim C3: `restart_business_group` is exactly `stop` followed by
`start`, each half independently persisted.  (1) On documents, restart is
the monadic composition of the two halves.  At store level: (2) if the stop
half fails with NotFound, the start half is not attempted and the store is
untouched; (3) if the stop half's save fails, the store is untouched and
the whole restart errors; (4) if the stop half persists but the start
half's save fails, the group is left in the `Stopped` state the stop
produced — not rolled back; (5) if both halves persist, the group ends
`Running`. -/
theorem restart_is_stop_then_start :
    (∀ (gid : String) (cfg : Config),
      restart_business_group gid cfg =
        (stop_business_group gid cfg).bind (start_business_group gid)) ∧
    (∀ (gid : String) (b1 b2 : Bool) (cfg : Config),
      (∀ g ∈ cfg.app_state.business_groups, g.id ≠ gid) →
      restart_business_group_store gid b1 b2 cfg =
        (.error (.groupNotFound gid), cfg)) ∧
    (∀ (gid : String) (b2 : Bool) (cfg : Config),
      ∃ e, restart_business_group_store gid false b2 cfg = (.error e, cfg)) ∧
    (∀ (gid : String) (cfg : Config) (g : BusinessGroup),
      cfg.app_state.business_groups.find? (fun x => x.id == gid) = some g →
      (restart_business_group_store gid true false cfg).1 =
          .error .ioFailure ∧
        ∃ g', (restart_business_group_store gid true false
              cfg).2.app_state.business_groups.find? (fun x => x.id == gid) =
            some g' ∧ g'.status = GroupStatus.Stopped) ∧
    (∀ (gid : String) (cfg : Config) (g : BusinessGroup),
      cfg.app_state.business_groups.find? (fun x => x.id == gid) = some g →
      ∃ cfg2, restart_business_group_store gid true true cfg =
          (.ok cfg2, cfg2) ∧
        ∃ g', cfg2.app_state.business_groups.find? (fun x => x.id == gid) =
            some g' ∧ g'.status = GroupStatus.Running) := by
  refine ⟨fun gid cfg => rfl, ?_, ?_, ?_, ?_⟩
  · intro gid b1 b2 cfg h
    have h1 : stop_business_group gid cfg = .error (.groupNotFound gid) :=
      withGroup_absent h
    simp [restart_business_group_store, runStore, h1]
  · intro gid b2 cfg
    cases hstop : stop_business_group gid cfg with
    | error e =>
      exact ⟨e, by simp [restart_business_group_store, runStore, hstop]⟩
    | ok c1 =>
      exact ⟨.ioFailure, by simp [restart_business_group_store, runStore, hstop]⟩
  · intro gid cfg g hf
    obtain ⟨c1, hstop⟩ := stop_business_group_of_find hf
    obtain ⟨g1, hfind1, hst1⟩ := stop_business_group_status hstop
    obtain ⟨c2, hstart⟩ := start_business_group_of_find hfind1
    have hrun : restart_business_group_store gid true false cfg =
        (.error .ioFailure, c1) := by
      simp [restart_business_group_store, runStore, hstop, hstart]
    rw [hrun]
    exact ⟨rfl, g1, hfind1, hst1⟩
  · intro gid cfg g hf
    obtain ⟨c1, hstop⟩ := stop_business_group_of_find hf
    obtain ⟨g1, hfind1, hst1⟩ := stop_business_group_status hstop
    obtain ⟨c2, hstart⟩ := start_business_group_of_find hfind1
    obtain ⟨g2, hfind2, hst2⟩ := start_business_group_status hstart
    have hrun : restart_business_group_store gid true true cfg =
        (.ok c2, c2) := by
      simp [restart_business_group_store, runStore, hstop, hstart]
    exact ⟨c2, hrun, g2, hfind2, hst2⟩

/-- Witness for C3 at a concrete one-group store: with the stop half
persisted and the start half's save failing, the restart errors and the
group is left `Stopped`. -/
theorem restart_is_stop_then_start_witness :
    (restart_business_group_store "g1" true false
        (sampleConfig [sampleGroup "g1" [] [] GroupStatus.Running])).1 =
      .error .ioFailure :=
  (restart_is_stop_then_start.2.2.2.1 "g1"
    (sampleConfig [sampleGroup "g1" [] [] GroupStatus.Running])
    (sampleGroup "g1" [] [] GroupStatus.Running) rfl).1

/-- Replacing the group list by itself is the identity. -/
theorem setGroups_self (cfg : Config) :
    setGroups cfg cfg.app_state.business_groups = cfg := rfl

/-- Lemma: `withMiddleware` succeeds when group and middleware resolve and the body
succeeds on the found middleware. -/
theorem withMiddleware_ok_of_find {gid mid : String}
    {k : MiddlewareContainer → Except SvcError MiddlewareContainer}
    {cfg : Config} {g : BusinessGroup} {m m' : MiddlewareContainer}
    (hg : cfg.app_state.business_groups.find? (fun x => x.id == gid) = some g)
    (hm : g.middlewares.find? (fun x => x.id == mid) = some m)
    (hk : k m = .ok m') : ∃ cfg2, withMiddleware gid mid k cfg = .ok cfg2 := by
  unfold withMiddleware
  obtain ⟨ms, hms⟩ := mutateList_ok_of_find (e := .middlewareNotFound mid) hm hk
  exact withGroup_ok_of_find hg (by rw [hms]; rfl)

/-- Lemma: `withMiddleware` propagates the body's error when group and middleware
resolve. -/
theorem withMiddleware_err_of_find {gid mid : String}
    {k : MiddlewareContainer → Except SvcError MiddlewareContainer}
    {cfg : Config} {g : BusinessGroup} {m : MiddlewareContainer} {e : SvcError}
    (hg : cfg.app_state.business_groups.find? (fun x => x.id == gid) = some g)
    (hm : g.middlewares.find? (fun x => x.id == mid) = some m)
    (hk : k m = .error e) : withMiddleware gid mid k cfg = .error e := by
  unfold withMiddleware
  exact withGroup_err_of_find hg
    (by rw [mutateList_err_of_find hm hk]; rfl)

/-- Claim C5: a backend contained only in a middleware's list resolves with
the middleware identifier, while resolving it with no middleware identifier
searches only the group's directly-owned list and reports the backend-level
NotFound — both for `start_backend` and `update_backend`. -/
theorem backend_scope_isolation (cfg : Config) (gid mid bid : String)
    (g : BusinessGroup) (m : MiddlewareContainer)
    (hg : cfg.app_state.business_groups.find? (fun x => x.id == gid) = some g)
    (hm : g.middlewares.find? (fun x => x.id == mid) = some m)
    (hb : ∃ b ∈ m.backend_containers, b.id = bid)
    (hnot : ∀ b ∈ g.backend_containers, b.id ≠ bid) :
    (∃ cfg', start_backend gid (some mid) bid cfg = .ok cfg') ∧
    start_backend gid none bid cfg = .error (.backendNotFound bid) ∧
    (∀ b : BackendContainer, b.id = bid →
      update_backend gid none b cfg = .error (.backendNotFound bid)) := by
  obtain ⟨b0, hb0mem, hb0id⟩ := hb
  have hfb : (m.backend_containers.find? (fun x => x.id == bid)).isSome :=
    List.find?_isSome.mpr ⟨b0, hb0mem, by simp [hb0id]⟩
  obtain ⟨b1, hfindb⟩ := Option.isSome_iff_exists.mp hfb
  refine ⟨?_, ?_, ?_⟩
  · obtain ⟨bs, hbs⟩ :=
      mutateList_ok_of_find (e := SvcError.backendNotFound bid) hfindb
        (k := fun b => .ok (startedBackend b)) rfl
    exact withMiddleware_ok_of_find hg hm (by rw [hbs]; rfl)
  · refine withGroup_err_of_find hg ?_
    rw [mutateList_none (fun x hx => by simpa using hnot x hx)]
    rfl
  · intro b hbid
    subst hbid
    refine withGroup_err_of_find hg ?_
    rw [mutateList_none (fun x hx => by simpa using hnot x hx)]
    rfl

/-- Witness for C5: the spec scenario — `B2` lives only under middleware
`M1` of group `G1`. -/
theorem backend_scope_isolation_witness :
    start_backend "G1" none "B2"
        (sampleConfig [sampleGroup "G1"
          [sampleMiddleware "M1"
            [sampleBackend "B2" ContainerStatus.Stopped HealthStatus.Unknown]]
          [] GroupStatus.Running]) =
      .error (.backendNotFound "B2") :=
  (backend_scope_isolation
    (sampleConfig [sampleGroup "G1"
      [sampleMiddleware "M1"
        [sampleBackend "B2" ContainerStatus.Stopped HealthStatus.Unknown]]
      [] GroupStatus.Running])
    "G1" "M1" "B2"
    (sampleGroup "G1"
      [sampleMiddleware "M1"
        [sampleBackend "B2" ContainerStatus.Stopped HealthStatus.Unknown]]
      [] GroupStatus.Running)
    (sampleMiddleware "M1"
      [sampleBackend "B2" ContainerStatus.Stopped HealthStatus.Unknown])
    rfl rfl
    ⟨sampleBackend "B2" ContainerStatus.Stopped HealthStatus.Unknown,
      by decide, rfl⟩
    (by decide)).2.1

/-- Claim C6: `start_backend`, `stop_backend`, and `restart_backend` (in
either scope) change nothing in the document except the status of backends
with the resolved identifier — in particular every health field, including
the target's, is exactly as loaded. -/
theorem backend_lifecycle_preserves_health (gid : String) (mid : Option String)
    (bid : String) (cfg cfg' : Config)
    (h : start_backend gid mid bid cfg = .ok cfg' ∨
         stop_backend gid mid bid cfg = .ok cfg' ∨
         restart_backend gid mid bid cfg = .ok cfg') :
    mapBackends (maskStatus bid) cfg' = mapBackends (maskStatus bid) cfg ∧
    backendHealths cfg' = backendHealths cfg := by
  have hmask : mapBackends (maskStatus bid) cfg' =
      mapBackends (maskStatus bid) cfg := by
    rcases h with h | h | h
    · refine withBackendIn_mask (fun b b' hp hk => ?_) h
      obtain rfl : startedBackend b = b' := Except.ok.inj hk
      exact maskStatus_startedBackend hp
    · refine withBackendIn_mask (fun b b' hp hk => ?_) h
      obtain rfl : stoppedBackend b = b' := Except.ok.inj hk
      exact maskStatus_stoppedBackend hp
    · obtain ⟨c1, h1, h2⟩ := exceptBind_ok h
      have e1 := withBackendIn_mask (fun b b' hp hk => by
        obtain rfl : stoppedBackend b = b' := Except.ok.inj hk
        exact maskStatus_stoppedBackend hp) h1
      have e2 := withBackendIn_mask (fun b b' hp hk => by
        obtain rfl : startedBackend b = b' := Except.ok.inj hk
        exact maskStatus_startedBackend hp) h2
      exact e2.trans e1
  have hh := backendHealths_mapBackends (maskStatus bid) (maskStatus_health bid)
  refine ⟨hmask, ?_⟩
  calc backendHealths cfg'
      = backendHealths (mapBackends (maskStatus bid) cfg') := (hh cfg').symm
    _ = backendHealths (mapBackends (maskStatus bid) cfg) := by rw [hmask]
    _ = backendHealths cfg := hh cfg

/-- Witness for C6: starting a concrete healthy, stopped, group-direct
backend keeps its health value. -/
theorem backend_lifecycle_preserves_health_witness :
    backendHealths (setGroups
        (sampleConfig [sampleGroup "G1" []
          [sampleBackend "B1" ContainerStatus.Stopped HealthStatus.Healthy]
          GroupStatus.Running])
        [{ sampleGroup "G1" []
            [sampleBackend "B1" ContainerStatus.Stopped HealthStatus.Healthy]
            GroupStatus.Running with
          backend_containers :=
            [startedBackend
              (sampleBackend "B1" ContainerStatus.Stopped HealthStatus.Healthy)] }]) =
      backendHealths (sampleConfig [sampleGroup "G1" []
        [sampleBackend "B1" ContainerStatus.Stopped HealthStatus.Healthy]
        GroupStatus.Running]) :=
  (backend_lifecycle_preserves_health "G1" none "B1"
    (sampleConfig [sampleGroup "G1" []
      [sampleBackend "B1" ContainerStatus.Stopped HealthStatus.Healthy]
      GroupStatus.Running])
    (setGroups
      (sampleConfig [sampleGroup "G1" []
        [sampleBackend "B1" ContainerStatus.Stopped HealthStatus.Healthy]
        GroupStatus.Running])
      [{ sampleGroup "G1" []
          [sampleBackend "B1" ContainerStatus.Stopped HealthStatus.Healthy]
          GroupStatus.Running with
        backend_containers :=
          [startedBackend
            (sampleBackend "B1" ContainerStatus.Stopped HealthStatus.Healthy)] }])
    (Or.inl rfl)).2

/-- Claim C7: `delete_business_group` removes the group with the given id
together with all nested middleware and backend entities (they live inside
the removed group record): a subsequent get reports none, and resolving any
descendant path through the deleted group id reports the group-level
NotFound; deleting an absent identifier succeeds, leaves the store
unchanged, and the operation is idempotent. -/
theorem delete_group_cascades (gid : String) (cfg : Config) :
    ∃ cfg', delete_business_group gid cfg = .ok cfg' ∧
      cfg'.app_state.business_groups =
        cfg.app_state.business_groups.filter (fun g => g.id != gid) ∧
      get_business_group gid cfg' = .ok none ∧
      (∀ (mid bid : String), start_backend gid (some mid) bid cfg' =
        .error (.groupNotFound gid)) ∧
      ((∀ g ∈ cfg.app_state.business_groups, g.id ≠ gid) → cfg' = cfg) ∧
      delete_business_group gid cfg' = .ok cfg' := by
  refine ⟨setGroups cfg (cfg.app_state.business_groups.filter
    (fun g => g.id != gid)), rfl, rfl, ?_, ?_, ?_, ?_⟩
  · have hnone : ((setGroups cfg (cfg.app_state.business_groups.filter
        (fun g => g.id != gid))).app_state.business_groups.find?
          (fun g => g.id == gid)) = none := by
      rw [setGroups_groups, List.find?_eq_none]
      intro x hx
      have hxf := (List.mem_filter.mp hx).2
      simpa using hxf
    unfold get_business_group
    rw [hnone]
  · intro mid bid
    refine withGroup_absent ?_
    intro g hgmem
    rw [setGroups_groups] at hgmem
    have := (List.mem_filter.mp hgmem).2
    simpa using this
  · intro h
    have hfil : cfg.app_state.business_groups.filter (fun g => g.id != gid) =
        cfg.app_state.business_groups :=
      List.filter_eq_self.mpr (fun a ha => by simpa using h a ha)
    rw [hfil, setGroups_self]
  · have hfil : (setGroups cfg (cfg.app_state.business_groups.filter
        (fun g => g.id != gid))).app_state.business_groups.filter
          (fun g => g.id != gid) =
        (setGroups cfg (cfg.app_state.business_groups.filter
          (fun g => g.id != gid))).app_state.business_groups := by
      rw [setGroups_groups]
      exact List.filter_eq_self.mpr (fun a ha => (List.mem_filter.mp ha).2)
    unfold delete_business_group
    rw [hfil, setGroups_self]

/-- Witness for C7: deleting group `G1` from a concrete two-group store
leaves only `G2`, and the deleted group no longer resolves. -/
theorem delete_group_cascades_witness :
    get_business_group "G1" (setGroups
      (sampleConfig [sampleGroup "G1" [] [] GroupStatus.Running,
        sampleGroup "G2" [] [] GroupStatus.Stopped])
      ([sampleGroup "G1" [] [] GroupStatus.Running,
        sampleGroup "G2" [] [] GroupStatus.Stopped].filter
          (fun g => g.id != "G1"))) = .ok none := by
  obtain ⟨cfg', hdel, hgroups, hget, hrest⟩ := delete_group_cascades "G1"
    (sampleConfig [sampleGroup "G1" [] [] GroupStatus.Running,
      sampleGroup "G2" [] [] GroupStatus.Stopped])
  have : cfg' = setGroups
      (sampleConfig [sampleGroup "G1" [] [] GroupStatus.Running,
        sampleGroup "G2" [] [] GroupStatus.Stopped])
      ([sampleGroup "G1" [] [] GroupStatus.Running,
        sampleGroup "G2" [] [] GroupStatus.Stopped].filter
          (fun g => g.id != "G1")) := Except.ok.inj hdel.symm
  rw [this] at hget
  exact hget

/-- Claim C9: `delete_backend` never reports NotFound at the backend level —
whenever the group (and, when given, the middleware) resolves it succeeds
and persists, even with no backend of that id in the scope; while
`update_backend` and `start_backend` report the backend-level NotFound for
an absent id in the same scope. -/
theorem delete_backend_total (cfg : Config) (gid bid : String)
    (g : BusinessGroup)
    (hg : cfg.app_state.business_groups.find? (fun x => x.id == gid) = some g) :
    (∃ cfg', delete_backend gid none bid cfg = .ok cfg') ∧
    (∀ (mid : String) (m : MiddlewareContainer),
      g.middlewares.find? (fun x => x.id == mid) = some m →
      ∃ cfg', delete_backend gid (some mid) bid cfg = .ok cfg') ∧
    ((∀ b ∈ g.backend_containers, b.id ≠ bid) →
      ∀ b : BackendContainer, b.id = bid →
        update_backend gid none b cfg = .error (.backendNotFound bid)) ∧
    ((∀ b ∈ g.backend_containers, b.id ≠ bid) →
      start_backend gid none bid cfg = .error (.backendNotFound bid)) := by
  refine ⟨?_, ?_, ?_, ?_⟩
  · exact withGroup_ok_of_find hg rfl
  · intro mid m hm
    exact withMiddleware_ok_of_find hg hm rfl
  · intro hnot b hbid
    subst hbid
    refine withGroup_err_of_find hg ?_
    rw [mutateList_none (fun x hx => by simpa using hnot x hx)]
    rfl
  · intro hnot
    refine withGroup_err_of_find hg ?_
    rw [mutateList_none (fun x hx => by simpa using hnot x hx)]
    rfl

/-- Witness for C9: deleting an absent backend id from a resolvable group
succeeds, on a concrete store. -/
theorem delete_backend_total_witness :
    ∃ cfg', delete_backend "G1" none "nope"
        (sampleConfig [sampleGroup "G1" [] [] GroupStatus.Running]) =
      .ok cfg' :=
  (delete_backend_total
    (sampleConfig [sampleGroup "G1" [] [] GroupStatus.Running]) "G1" "nope"
    (sampleGroup "G1" [] [] GroupStatus.Running) rfl).1

/-- Claim C10: the Entity Service core never touches a group's
`created_at` / `updated_at`: `update_business_group` stores the payload
verbatim (whatever timestamps it carries end up in the store unchanged),
and start/stop/restart/delete leave the id and both timestamps of every
remaining group exactly as loaded. -/
theorem timestamps_untouched :
    (∀ (gr : BusinessGroup) (cfg cfg' : Config),
        update_business_group gr cfg = .ok cfg' →
        gr ∈ cfg'.app_state.business_groups) ∧
    (∀ (gid : String) (cfg cfg' : Config),
        (start_business_group gid cfg = .ok cfg' ∨
         stop_business_group gid cfg = .ok cfg' ∨
         restart_business_group gid cfg = .ok cfg' ∨
         delete_business_group gid cfg = .ok cfg') →
        ∀ g' ∈ cfg'.app_state.business_groups,
          ∃ gsrc ∈ cfg.app_state.business_groups,
            gsrc.id = g'.id ∧ gsrc.created_at = g'.created_at ∧
              gsrc.updated_at = g'.updated_at) := by
  constructor
  · intro gr cfg cfg' h
    obtain ⟨ys, h1, h2⟩ := withGroup_ok h
    subst h2
    rw [setGroups_groups]
    obtain ⟨pre, x, y, post, hxs, hys, hpre, hpx, hkx⟩ := mutateList_ok h1
    obtain rfl : gr = y := Except.ok.inj hkx
    subst hys
    simp
  · have hmap : ∀ {c c' : Config},
        c'.app_state.business_groups.map groupStamp =
          c.app_state.business_groups.map groupStamp →
        ∀ g0 ∈ c'.app_state.business_groups,
          ∃ gsrc ∈ c.app_state.business_groups, gsrc.id = g0.id ∧
            gsrc.created_at = g0.created_at ∧
              gsrc.updated_at = g0.updated_at := by
      intro c c' he g0 hg0
      obtain ⟨x, hx, hfx⟩ := exists_of_map_eq he g0 hg0
      simp only [groupStamp, Prod.mk.injEq] at hfx
      exact ⟨x, hx, hfx.1, hfx.2.1, hfx.2.2⟩
    intro gid cfg cfg' h g' hg'
    rcases h with h | h | h | h
    · exact hmap (withGroup_stamp (fun g0 g2 _ hk => by
        obtain rfl : startedGroup g0 = g2 := Except.ok.inj hk
        rfl) h) g' hg'
    · exact hmap (withGroup_stamp (fun g0 g2 _ hk => by
        obtain rfl : stoppedGroup g0 = g2 := Except.ok.inj hk
        rfl) h) g' hg'
    · obtain ⟨c1, h1, h2⟩ := exceptBind_ok h
      have e1 := withGroup_stamp (fun g0 g2 _ hk => by
        obtain rfl : stoppedGroup g0 = g2 := Except.ok.inj hk
        rfl) h1
      have e2 := withGroup_stamp (fun g0 g2 _ hk => by
        obtain rfl : startedGroup g0 = g2 := Except.ok.inj hk
        rfl) h2
      exact hmap (e2.trans e1) g' hg'
    · obtain rfl : setGroups cfg (cfg.app_state.business_groups.filter
          (fun g => g.id != gid)) = cfg' := Except.ok.inj h
      rw [setGroups_groups] at hg'
      exact ⟨g', List.mem_of_mem_filter hg', rfl, rfl, rfl⟩

/-- Witness for C10: updating a concrete group stores the caller's entity
(with its timestamps) verbatim. -/
theorem timestamps_untouched_witness :
    sampleGroup "G1" [] [] GroupStatus.Stopped ∈
      (setGroups (sampleConfig [sampleGroup "G1" [] [] GroupStatus.Running])
        [sampleGroup "G1" [] []
          GroupStatus.Stopped]).app_state.business_groups :=
  timestamps_untouched.1 (sampleGroup "G1" [] [] GroupStatus.Stopped)
    (sampleConfig [sampleGroup "G1" [] [] GroupStatus.Running])
    (setGroups (sampleConfig [sampleGroup "G1" [] [] GroupStatus.Running])
      [sampleGroup "G1" [] [] GroupStatus.Stopped]) rfl
